import Mathlib

/-!
Verification of the matchstick_empire simulation core.

This file embeds, shallowly, the parts of the repository that the checked
claims are about:

* `src/lib/shared/utils/numbers.ts` — the `SafeBigInt` clamped big-integer
  arithmetic (JavaScript `bigint` is embedded as `Int`; JavaScript `number`
  is embedded as `ℚ`.  Outside the auto-clicker cost, every `number` value
  handled here is exactly representable in binary64 and every operation on
  it is exact, so exact rationals coincide with the doubles the program
  computes; the auto-clicker cost is sensitive to `Math.pow` rounding and
  is therefore evaluated through the explicit binary64 rounding model
  `toF64` / `mathPow` defined below).
* `src/lib/shared/stores/gameState.ts` — the game-state container and its
  `gameActions` (`addResources`, `subtractResources`, `sellMatchsticks`,
  `updateMarket`, `updateAchievements`, `load` sanitization).
* `src/lib/shared/services/market.ts` — `MarketService.sellMatchsticks`
  and `calculateMarketImpact`.
* `src/lib/shared/services/production.ts` — `ProductionService`
  (`produceMatchsticks`, `updateClickCombo`, `updateClickStats`).
* `src/lib/shared/services/achievements.ts` — `AchievementService`
  (`checkAchievements`, requirement predicates, rewards).
* `src/lib/shared/services/automation.ts` — `AutomationService`
  (`purchaseAutoClicker`, `calculateAutoClickerCost`,
  `checkUnlockRequirement`).
* `src/lib/shared/services/storage.ts` — the save/load round trip with the
  `bigIntReplacer` / `bigIntReviver` tagged encoding and the checksum gate.

Event emission (`gameActions.emitEvent`) appends to a separate bounded
event store that no checked claim mentions; it is omitted from the
embedded state.  `Date.now()` is passed in explicitly as a time parameter
where the code reads the clock.  The SHA-256 digest used by the storage
checksum is abstracted as the canonical serialized encoding itself: equal
encodings give equal digests (the direction every claim uses), and the
digest is deterministic.
-/

/-- `SafeBigInt.MAX_SAFE` from numbers.ts: `2n ** 1000n - 1n`.  Written as
the decimal literal so that the kernel can evaluate comparisons against it;
`SafeBigInt.MAX_SAFE_spec` below proves it equals `2 ^ 1000 - 1`. -/
def SafeBigInt.MAX_SAFE : Int :=
  10715086071862673209484250490600018105614048117055336074437503883703510511249361224931983788156958581275946729175531468251871452856923140435984577574698574803934567774824230985421074605062371141877954182153046474983581941267398767559165543946077062914571196477686542167660429831652624386837205668069375

/-- The literal above is `2 ^ 1000 - 1`. -/
theorem SafeBigInt.MAX_SAFE_spec : SafeBigInt.MAX_SAFE = 2 ^ 1000 - 1 := by
  norm_num [SafeBigInt.MAX_SAFE]

/-- numbers.ts `SafeBigInt.add`: `a + b`, clamped above at `MAX_SAFE`. -/
def SafeBigInt.add (a b : Int) : Int :=
  let result := a + b
  if result > SafeBigInt.MAX_SAFE then SafeBigInt.MAX_SAFE else result

/-- numbers.ts `SafeBigInt.subtract`: `a - b`, clamped below at `0`. -/
def SafeBigInt.subtract (a b : Int) : Int :=
  let result := a - b
  if result < 0 then 0 else result

/-- numbers.ts `SafeBigInt.multiply`: `a * b`, clamped above at `MAX_SAFE`
(the `try`/`catch` never fires for pure multiplication). -/
def SafeBigInt.multiply (a b : Int) : Int :=
  let result := a * b
  if result > SafeBigInt.MAX_SAFE then SafeBigInt.MAX_SAFE else result

/-- numbers.ts `SafeBigInt.divide`: `0` when the divisor is `0`, otherwise
JavaScript `bigint` division, which truncates toward zero (`Int.tdiv`). -/
def SafeBigInt.divide (a b : Int) : Int :=
  if b = 0 then 0 else Int.tdiv a b

/-- numbers.ts `SafeBigInt.compare`: three-way comparison returning
`-1`, `0` or `1`. -/
def SafeBigInt.compare (a b : Int) : Int :=
  if a < b then -1 else if a > b then 1 else 0

/-- numbers.ts `SafeBigInt.isSafe`: `value <= MAX_SAFE && value >= 0n`. -/
def SafeBigInt.isSafe (value : Int) : Bool :=
  value ≤ SafeBigInt.MAX_SAFE ∧ value ≥ 0

/-- The resource ledger (`ResourceState` in types/resources.ts):
`matchsticks` is a JavaScript `bigint`, the other three are numbers. -/
structure ResourceState where
  matchsticks : Int
  money : ℚ
  wood : ℚ
  reputation : ℚ
  deriving Repr, DecidableEq

/-- A `Partial<ResourceState>` argument to `addResources` /
`subtractResources`: absent fields are `none`. -/
structure ResourceDelta where
  matchsticks : Option Int := none
  money : Option ℚ := none
  wood : Option ℚ := none
  reputation : Option ℚ := none
  deriving Repr, DecidableEq

/-- JavaScript truthiness of a possibly-absent `bigint` field
(`undefined` and `0n` are falsy). -/
def truthyInt : Option Int → Bool
  | none => false
  | some v => v ≠ 0

/-- JavaScript truthiness of a possibly-absent `number` field
(`undefined` and `0` are falsy; `NaN` does not arise in the embedded
values). -/
def truthyQ : Option ℚ → Bool
  | none => false
  | some v => v ≠ 0

/-- `x || 0` on a possibly-absent number. -/
def orZero : Option ℚ → ℚ
  | none => 0
  | some v => v

/-- gameState.ts `gameActions.addResources`: each field is added
independently; `matchsticks` goes through `SafeBigInt.add` when the delta
is truthy. -/
def addResources (current : ResourceState) (additions : ResourceDelta) :
    ResourceState :=
  { matchsticks :=
      if truthyInt additions.matchsticks then
        SafeBigInt.add current.matchsticks (additions.matchsticks.getD 0)
      else current.matchsticks
    money := current.money + orZero additions.money
    wood := current.wood + orZero additions.wood
    reputation := current.reputation + orZero additions.reputation }

/-- gameState.ts `gameActions.subtractResources`: validates every truthy
field against the current balance *before* mutating anything; on any
failed check it returns `false` with the state unchanged, otherwise it
subtracts every field (matchsticks through `SafeBigInt.subtract`) and
returns `true`. -/
def subtractResources (current : ResourceState)
    (subtractions : ResourceDelta) : Bool × ResourceState :=
  if truthyInt subtractions.matchsticks ∧
      SafeBigInt.compare current.matchsticks
        (subtractions.matchsticks.getD 0) < 0 then
    (false, current)
  else if truthyQ subtractions.money ∧
      current.money < orZero subtractions.money then
    (false, current)
  else if truthyQ subtractions.wood ∧
      current.wood < orZero subtractions.wood then
    (false, current)
  else if truthyQ subtractions.reputation ∧
      current.reputation < orZero subtractions.reputation then
    (false, current)
  else
    (true,
      { matchsticks :=
          if truthyInt subtractions.matchsticks then
            SafeBigInt.subtract current.matchsticks
              (subtractions.matchsticks.getD 0)
          else current.matchsticks
        money := current.money - orZero subtractions.money
        wood := current.wood - orZero subtractions.wood
        reputation := current.reputation - orZero subtractions.reputation })

/-- gameState.ts `createInitialGameState().resources`. -/
def initialResources : ResourceState :=
  { matchsticks := 0, money := 0, wood := 0, reputation := 0 }

/-- One ledger operation: a `gameActions.addResources` or a
`gameActions.subtractResources` call. -/
inductive LedgerOp where
  | add (delta : ResourceDelta)
  | sub (delta : ResourceDelta)
  deriving Repr

/-- Apply one ledger operation (the boolean result of a subtraction is
discarded by callers that only care about the ledger). -/
def applyLedgerOp (r : ResourceState) : LedgerOp → ResourceState
  | .add delta => addResources r delta
  | .sub delta => (subtractResources r delta).2

/-- Run a sequence of ledger operations from a starting state. -/
def runLedgerOps (r : ResourceState) (ops : List LedgerOp) : ResourceState :=
  ops.foldl applyLedgerOp r

/-- All four ledger fields are nonnegative. -/
def ResourceState.Nonneg (r : ResourceState) : Prop :=
  0 ≤ r.matchsticks ∧ 0 ≤ r.money ∧ 0 ≤ r.wood ∧ 0 ≤ r.reputation

instance (r : ResourceState) : Decidable r.Nonneg := by
  unfold ResourceState.Nonneg; infer_instance

/-- Every present field of the delta is nonnegative. -/
def ResourceDelta.Nonneg (d : ResourceDelta) : Prop :=
  (∀ v ∈ d.matchsticks, 0 ≤ v) ∧ (∀ v ∈ d.money, 0 ≤ v) ∧
  (∀ v ∈ d.wood, 0 ≤ v) ∧ (∀ v ∈ d.reputation, 0 ≤ v)

instance (d : ResourceDelta) : Decidable d.Nonneg := by
  unfold ResourceDelta.Nonneg; infer_instance

/-- The operation, if an addition, has a nonnegative delta. -/
def LedgerOp.addNonneg : LedgerOp → Prop
  | .add d => d.Nonneg
  | .sub _ => True

instance (op : LedgerOp) : Decidable op.addNonneg := by
  cases op <;> unfold LedgerOp.addNonneg <;> infer_instance

/-- Every `addResources` delta in the sequence is nonnegative (no
constraint is needed on subtractions). -/
def OpsAddNonneg (ops : List LedgerOp) : Prop :=
  ∀ op ∈ ops, op.addNonneg

instance (ops : List LedgerOp) : Decidable (OpsAddNonneg ops) := by
  unfold OpsAddNonneg; infer_instance

example : SafeBigInt.add 3 4 = 7 := by decide
example : SafeBigInt.subtract 3 4 = 0 := by decide
example : SafeBigInt.divide 7 0 = 0 := by decide
example : SafeBigInt.divide 7 2 = 3 := by decide
example : (subtractResources initialResources
    { money := some 5 }).1 = false := by decide

/-- types/market.ts `PriceHistoryEntry`. -/
structure PriceHistoryEntry where
  timestamp : ℚ
  price : ℚ
  volume : ℚ
  condition : String
  deriving Repr, DecidableEq

/-- types/market.ts `MarketCondition`. -/
structure MarketCondition where
  priceMultiplier : ℚ
  demandLevel : String
  trend : String
  duration : ℚ
  description : String
  deriving Repr, DecidableEq

/-- types/market.ts `MarketState`.  `condition` is declared non-optional in
the interface, but the market service both reads it optionally
(`condition?.priceMultiplier`) and clears it by assigning `undefined`, so it
is embedded as an `Option`. -/
structure MarketState where
  currentPrice : ℚ
  basePrice : ℚ
  priceHistory : List PriceHistoryEntry
  condition : Option MarketCondition
  autoSellEnabled : Bool
  autoSellThreshold : ℚ
  totalSold : Int
  totalRevenue : ℚ
  deriving Repr, DecidableEq

/-- An auto-clicker entry as the automation service creates and uses it
(`{ id, level, isActive, totalClicks, efficiency }`; the wider interface in
types/automation.ts has further display fields the service never writes).
`level` is a JavaScript number that is only ever `0`-or-incremented, so it
is embedded as `Nat`. -/
structure AutoClicker where
  id : String
  level : Nat
  isActive : Bool
  totalClicks : Int
  efficiency : ℚ
  deriving Repr, DecidableEq

/-- types/automation.ts `AutoSellSettings` (the shape used by
`createInitialGameState`). -/
structure AutoSellSettings where
  enabled : Bool
  threshold : ℚ
  maxPercentage : ℚ
  priceThreshold : ℚ
  smartSelling : Bool
  deriving Repr, DecidableEq

/-- types/automation.ts `ProductionMultiplier`. -/
structure ProductionMultiplierT where
  id : String
  name : String
  description : String
  multiplier : ℚ
  target : String
  isActive : Bool
  source : String
  deriving Repr, DecidableEq

/-- types/automation.ts `AutomationState`. -/
structure AutomationState where
  autoClickers : List AutoClicker
  autoSellEnabled : Bool
  autoSellSettings : AutoSellSettings
  multipliers : List ProductionMultiplierT
  totalMoneySpent : ℚ
  lastUpdate : ℚ
  deriving Repr, DecidableEq

/-- types/production.ts `ProductionState`; `multipliers` is a
`Record<string, number>` embedded as an insertion-ordered association
list. -/
structure ProductionState where
  manualRate : ℚ
  automatedRate : ℚ
  multipliers : List (String × ℚ)
  lastUpdate : ℚ
  totalProduced : Int
  deriving Repr, DecidableEq

/-- A `bigint | number | string` union value (types/production.ts
`UnlockRequirement.value`, types/achievements.ts
`AchievementRequirement.target`). -/
inductive TSNum where
  | big (b : Int)
  | num (q : ℚ)
  | str (s : String)
  deriving Repr, DecidableEq

/-- A `number | string` union value (reward `value` fields). -/
inductive NumOrStrT where
  | num (q : ℚ)
  | str (s : String)
  deriving Repr, DecidableEq

/-- types/achievements.ts `AchievementRequirement`. -/
structure AchievementRequirementT where
  type : String
  condition : String
  target : TSNum
  description : String
  deriving Repr, DecidableEq

/-- types/achievements.ts `AchievementReward`. -/
structure AchievementRewardT where
  type : String
  target : String
  value : NumOrStrT
  description : String
  deriving Repr, DecidableEq

/-- types/achievements.ts `Achievement`. -/
structure AchievementT where
  id : String
  name : String
  description : String
  category : String
  requirements : List AchievementRequirementT
  reward : Option AchievementRewardT
  isSecret : Bool
  unlockedAt : Option ℚ
  icon : Option String
  rarity : String
  deriving Repr, DecidableEq

/-- types/achievements.ts `AchievementProgress`; `currentValue` and
`targetValue` are `bigint | number` unions of which only the number side
is ever produced, embedded as `ℚ`. -/
structure AchievementProgressT where
  achievementId : String
  currentValue : ℚ
  targetValue : ℚ
  percentage : ℚ
  isComplete : Bool
  lastUpdated : ℚ
  deriving Repr, DecidableEq

/-- types/achievements.ts `AchievementNotification`. -/
structure AchievementNotificationT where
  id : String
  achievementId : String
  timestamp : ℚ
  isRead : Bool
  achievement : AchievementT
  deriving Repr, DecidableEq

/-- types/achievements.ts `AchievementStats`. -/
structure AchievementStats where
  totalUnlocked : ℚ
  totalHidden : ℚ
  completionPercentage : ℚ
  lastUnlocked : Option AchievementT
  unlockedToday : ℚ
  deriving Repr, DecidableEq

/-- types/achievements.ts `AchievementState`; `progress` is a
`Record<string, AchievementProgress>` embedded as an association list. -/
structure AchievementState where
  unlocked : List String
  progress : List (String × AchievementProgressT)
  notifications : List AchievementNotificationT
  stats : AchievementStats
  deriving Repr, DecidableEq

/-- types/production.ts `UnlockRequirement`. -/
structure UnlockRequirementT where
  type : String
  condition : String
  value : TSNum
  description : String
  deriving Repr, DecidableEq

/-- types/progression.ts `MilestoneReward`. -/
structure MilestoneRewardT where
  type : String
  target : String
  value : NumOrStrT
  description : String
  deriving Repr, DecidableEq

/-- types/progression.ts `GameMilestone`. -/
structure GameMilestone where
  id : String
  name : String
  description : String
  requirement : UnlockRequirementT
  reward : Option MilestoneRewardT
  isCompleted : Bool
  completedAt : Option ℚ
  category : String
  deriving Repr, DecidableEq

/-- types/progression.ts `ProgressionState`. -/
structure ProgressionState where
  currentPhase : String
  unlockedFeatures : List String
  completedTutorials : List String
  milestones : List GameMilestone
  worldConversionProgress : ℚ
  prestigeLevel : ℚ
  deriving Repr, DecidableEq

/-- types/progression.ts `TutorialState`. -/
structure TutorialState where
  activeTutorial : Option String
  currentStep : ℚ
  completedTutorials : List String
  skippedTutorials : List String
  isActive : Bool
  deriving Repr, DecidableEq

/-- types/settings.ts `AnimationSettings`. -/
structure AnimationSettings where
  enabled : Bool
  reducedMotion : Bool
  particleEffects : Bool
  transitionSpeed : String
  deriving Repr, DecidableEq

/-- types/settings.ts `NotificationSettings`. -/
structure NotificationSettings where
  enabled : Bool
  achievements : Bool
  milestones : Bool
  marketAlerts : Bool
  production : Bool
  sound : Bool
  deriving Repr, DecidableEq

/-- types/settings.ts `AccessibilitySettings`. -/
structure AccessibilitySettings where
  highContrast : Bool
  largeText : Bool
  screenReader : Bool
  keyboardNavigation : Bool
  colorBlindFriendly : Bool
  deriving Repr, DecidableEq

/-- types/settings.ts `SettingsState`. -/
structure SettingsState where
  theme : String
  soundEnabled : Bool
  musicEnabled : Bool
  hapticEnabled : Bool
  animations : AnimationSettings
  notifications : NotificationSettings
  accessibility : AccessibilitySettings
  language : String
  autoSave : Bool
  saveInterval : ℚ
  deriving Repr, DecidableEq

/-- types/settings.ts `EasterEggTrigger`. -/
structure EasterEggTriggerT where
  type : String
  condition : String
  value : Option NumOrStrT
  probability : Option ℚ
  deriving Repr, DecidableEq

/-- types/settings.ts `EasterEggContent`. -/
structure EasterEggContentT where
  type : String
  data : String
  duration : Option ℚ
  deriving Repr, DecidableEq

/-- types/settings.ts `EasterEgg`. -/
structure EasterEgg where
  id : String
  name : String
  description : String
  trigger : EasterEggTriggerT
  content : EasterEggContentT
  discoveredAt : Option ℚ
  isRepeatable : Bool
  deriving Repr, DecidableEq

/-- types/settings.ts `EasterEggSequence`. -/
structure EasterEggSequence where
  id : String
  sequence : List String
  timeout : ℚ
  currentStep : ℚ
  lastInput : ℚ
  deriving Repr, DecidableEq

/-- types/settings.ts `EasterEggState`. -/
structure EasterEggState where
  discovered : List String
  sequences : List EasterEggSequence
  totalFound : ℚ
  lastFound : Option EasterEgg
  deriving Repr, DecidableEq

/-- types/index.ts `GameMetadata`. -/
structure GameMetadata where
  version : String
  playerId : String
  createdAt : ℚ
  lastSaved : ℚ
  totalPlayTime : ℚ
  sessionStartTime : ℚ
  gameSpeed : ℚ
  debugMode : Bool
  deriving Repr, DecidableEq

/-- types/index.ts `GameState`. -/
structure GameState where
  resources : ResourceState
  production : ProductionState
  market : MarketState
  automation : AutomationState
  achievements : AchievementState
  progression : ProgressionState
  tutorial : TutorialState
  settings : SettingsState
  easterEggs : EasterEggState
  metadata : GameMetadata
  deriving Repr, DecidableEq

/-- gameState.ts `createInitialGameState()`, with `Date.now()` passed in as
`now`. -/
def createInitialGameState (now : ℚ) : GameState :=
  { resources := { matchsticks := 0, money := 0, wood := 0, reputation := 0 }
    production :=
      { manualRate := 1, automatedRate := 0, multipliers := []
        lastUpdate := now, totalProduced := 0 }
    market :=
      { currentPrice := 1, basePrice := 1, priceHistory := []
        condition := some
          { priceMultiplier := 1, demandLevel := "normal", trend := "stable"
            duration := 0, description := "Normal market conditions" }
        autoSellEnabled := false, autoSellThreshold := 100
        totalSold := 0, totalRevenue := 0 }
    automation :=
      { autoClickers := [], autoSellEnabled := false
        autoSellSettings :=
          { enabled := false, threshold := 100, maxPercentage := 50
            priceThreshold := 1/2, smartSelling := false }
        multipliers := [], totalMoneySpent := 0, lastUpdate := now }
    achievements :=
      { unlocked := [], progress := [], notifications := []
        stats :=
          { totalUnlocked := 0, totalHidden := 0, completionPercentage := 0
            lastUnlocked := none, unlockedToday := 0 } }
    progression :=
      { currentPhase := "manual", unlockedFeatures := ["manual_production"]
        completedTutorials := [], milestones := []
        worldConversionProgress := 0, prestigeLevel := 0 }
    tutorial :=
      { activeTutorial := none, currentStep := 0, completedTutorials := []
        skippedTutorials := [], isActive := true }
    settings :=
      { theme := "light", soundEnabled := true, musicEnabled := true
        hapticEnabled := true
        animations :=
          { enabled := true, reducedMotion := false, particleEffects := true
            transitionSpeed := "normal" }
        notifications :=
          { enabled := true, achievements := true, milestones := true
            marketAlerts := true, production := true, sound := true }
        accessibility :=
          { highContrast := false, largeText := false, screenReader := false
            keyboardNavigation := true, colorBlindFriendly := false }
        language := "en", autoSave := true, saveInterval := 30000 }
    easterEggs := { discovered := [], sequences := [], totalFound := 0
                    lastFound := none }
    metadata :=
      { version := "1.0.0", playerId := "1", createdAt := now
        lastSaved := now, totalPlayTime := 0, sessionStartTime := now
        gameSpeed := 1, debugMode := false } }

/-- `gameActions.addResources` lifted to the whole game state. -/
def addResourcesG (gs : GameState) (additions : ResourceDelta) : GameState :=
  { gs with resources := addResources gs.resources additions }

/-- `gameActions.subtractResources` lifted to the whole game state. -/
def subtractResourcesG (gs : GameState) (subtractions : ResourceDelta) :
    Bool × GameState :=
  let (ok, r) := subtractResources gs.resources subtractions
  (ok, { gs with resources := r })

/-- A `Partial<MarketState>` argument to `gameActions.updateMarket`.
`condition := some none` is an explicit `condition: undefined` entry, which
the JavaScript spread does copy over the current value. -/
structure MarketUpdate where
  currentPrice : Option ℚ := none
  basePrice : Option ℚ := none
  priceHistory : Option (List PriceHistoryEntry) := none
  condition : Option (Option MarketCondition) := none
  autoSellEnabled : Option Bool := none
  autoSellThreshold : Option ℚ := none
  totalSold : Option Int := none
  totalRevenue : Option ℚ := none

/-- gameState.ts `gameActions.updateMarket`: shallow merge into
`state.market`. -/
def updateMarket (gs : GameState) (u : MarketUpdate) : GameState :=
  { gs with market :=
    { currentPrice := u.currentPrice.getD gs.market.currentPrice
      basePrice := u.basePrice.getD gs.market.basePrice
      priceHistory := u.priceHistory.getD gs.market.priceHistory
      condition := u.condition.getD gs.market.condition
      autoSellEnabled := u.autoSellEnabled.getD gs.market.autoSellEnabled
      autoSellThreshold := u.autoSellThreshold.getD gs.market.autoSellThreshold
      totalSold := u.totalSold.getD gs.market.totalSold
      totalRevenue := u.totalRevenue.getD gs.market.totalRevenue } }

/-- A `Partial<AchievementState>` argument to
`gameActions.updateAchievements`. -/
structure AchievementsUpdate where
  unlocked : Option (List String) := none
  progress : Option (List (String × AchievementProgressT)) := none
  notifications : Option (List AchievementNotificationT) := none
  stats : Option AchievementStats := none

/-- gameState.ts `gameActions.updateAchievements`: shallow merge into
`state.achievements`. -/
def updateAchievements (gs : GameState) (u : AchievementsUpdate) : GameState :=
  { gs with achievements :=
    { unlocked := u.unlocked.getD gs.achievements.unlocked
      progress := u.progress.getD gs.achievements.progress
      notifications := u.notifications.getD gs.achievements.notifications
      stats := u.stats.getD gs.achievements.stats } }

/-- A `Partial<ProductionState>` argument to
`gameActions.updateProduction`. -/
structure ProductionUpdate where
  manualRate : Option ℚ := none
  automatedRate : Option ℚ := none
  multipliers : Option (List (String × ℚ)) := none
  totalProduced : Option Int := none

/-- gameState.ts `gameActions.updateProduction`: shallow merge into
`state.production`, always stamping `lastUpdate` with `Date.now()` (the
`now` argument). -/
def updateProduction (gs : GameState) (u : ProductionUpdate) (now : ℚ) :
    GameState :=
  { gs with production :=
    { manualRate := u.manualRate.getD gs.production.manualRate
      automatedRate := u.automatedRate.getD gs.production.automatedRate
      multipliers := u.multipliers.getD gs.production.multipliers
      lastUpdate := now
      totalProduced := u.totalProduced.getD gs.production.totalProduced } }

/-- A `Partial<AutomationState>` argument to
`gameActions.updateAutomation`. -/
structure AutomationUpdate where
  autoClickers : Option (List AutoClicker) := none
  autoSellEnabled : Option Bool := none
  autoSellSettings : Option AutoSellSettings := none
  multipliers : Option (List ProductionMultiplierT) := none
  totalMoneySpent : Option ℚ := none
  lastUpdate : Option ℚ := none

/-- gameState.ts `gameActions.updateAutomation`: shallow merge into
`state.automation`. -/
def updateAutomation (gs : GameState) (u : AutomationUpdate) : GameState :=
  { gs with automation :=
    { autoClickers := u.autoClickers.getD gs.automation.autoClickers
      autoSellEnabled := u.autoSellEnabled.getD gs.automation.autoSellEnabled
      autoSellSettings :=
        u.autoSellSettings.getD gs.automation.autoSellSettings
      multipliers := u.multipliers.getD gs.automation.multipliers
      totalMoneySpent := u.totalMoneySpent.getD gs.automation.totalMoneySpent
      lastUpdate := u.lastUpdate.getD gs.automation.lastUpdate } }

/-- gameState.ts `gameActions.sellMatchsticks`: checks the balance, then
subtracts the matchsticks, credits `amount * currentPrice` as money and
accumulates `totalSold` / `totalRevenue` (both computed from the state
captured at entry). -/
def gameSellMatchsticks (gs : GameState) (amount : Int) : Bool × GameState :=
  if SafeBigInt.compare gs.resources.matchsticks amount < 0 then
    (false, gs)
  else
    let revenue : ℚ := (amount : ℚ) * gs.market.currentPrice
    match subtractResourcesG gs { matchsticks := some amount } with
    | (true, gs1) =>
      let gs2 := addResourcesG gs1 { money := some revenue }
      let gs3 := updateMarket gs2
        { totalSold := some (SafeBigInt.add gs.market.totalSold amount)
          totalRevenue := some (gs.market.totalRevenue + revenue) }
      (true, gs3)
    | (false, _) => (false, gs)

/-- achievements.ts `SimpleAchievement.requirements`. -/
structure SimpleRequirements where
  type : String
  resource : Option String := none
  amount : Option Int := none
  stat : Option String := none
  value : Option ℚ := none
  phase : Option String := none
  deriving Repr, DecidableEq

/-- achievements.ts `SimpleAchievement.reward`. -/
structure SimpleReward where
  type : String
  amount : Option ℚ := none
  multiplier : Option ℚ := none
  deriving Repr, DecidableEq

/-- achievements.ts `SimpleAchievement`. -/
structure SimpleAchievement where
  id : String
  name : String
  description : String
  category : String
  difficulty : String
  points : ℚ
  requirements : SimpleRequirements
  reward : SimpleReward
  unlocked : Bool
  deriving Repr, DecidableEq

/-- achievements.ts `initializeAchievements()`: the nine built-in
achievement definitions, in registration order. -/
def initialAchievements : List SimpleAchievement :=
  [ { id := "first_match", name := "First Light"
      description := "Create your very first matchstick"
      category := "production", difficulty := "easy", points := 5
      requirements :=
        { type := "resource_total", resource := some "matchsticks"
          amount := some 1 }
      reward := { type := "money", amount := some 10 }, unlocked := false }
  , { id := "first_hundred", name := "Century Maker"
      description := "Produce 100 matchsticks"
      category := "production", difficulty := "easy", points := 10
      requirements :=
        { type := "resource_total", resource := some "matchsticks"
          amount := some 100 }
      reward := { type := "money", amount := some 50 }, unlocked := false }
  , { id := "thousand_matches", name := "Master Craftsman"
      description := "Produce 1,000 matchsticks"
      category := "production", difficulty := "medium", points := 25
      requirements :=
        { type := "resource_total", resource := some "matchsticks"
          amount := some 1000 }
      reward := { type := "money", amount := some 200 }, unlocked := false }
  , { id := "first_sale", name := "First Sale"
      description := "Make your first sale"
      category := "trading", difficulty := "easy", points := 5
      requirements :=
        { type := "stat_threshold", stat := some "totalSold", value := some 1 }
      reward := { type := "money", amount := some 25 }, unlocked := false }
  , { id := "merchant_apprentice", name := "Merchant Apprentice"
      description := "Earn 100 dollars in total revenue"
      category := "trading", difficulty := "easy", points := 10
      requirements :=
        { type := "stat_threshold", stat := some "totalRevenue"
          value := some 100 }
      reward := { type := "money", amount := some 50 }, unlocked := false }
  , { id := "bulk_trader", name := "Bulk Trader"
      description := "Sell 1,000 matchsticks in total"
      category := "trading", difficulty := "medium", points := 20
      requirements :=
        { type := "stat_threshold", stat := some "totalSold"
          value := some 1000 }
      reward := { type := "money", amount := some 100 }, unlocked := false }
  , { id := "automation_investor", name := "Automation Investor"
      description := "Spend 500 dollars on automation"
      category := "automation", difficulty := "medium", points := 15
      requirements :=
        { type := "stat_threshold", stat := some "totalAutomationSpent"
          value := some 500 }
      reward := { type := "money", amount := some 75 }, unlocked := false }
  , { id := "clicker_collector", name := "Clicker Collector"
      description := "Own 10 auto-clickers"
      category := "automation", difficulty := "medium", points := 20
      requirements :=
        { type := "stat_threshold", stat := some "totalAutoClickers"
          value := some 10 }
      reward := { type := "money", amount := some 100 }, unlocked := false }
  , { id := "automation_phase", name := "Industrial Revolution"
      description := "Reach the automation phase"
      category := "progression", difficulty := "medium", points := 30
      requirements := { type := "phase_reached", phase := some "automation" }
      reward := { type := "money", amount := some 150 }, unlocked := false } ]

/-- Sum of auto-clicker levels (`reduce((sum, clicker) => sum +
(clicker.level || 0), 0)`; `level || 0` is the identity on `Nat`). -/
def sumClickerLevels (clickers : List AutoClicker) : Nat :=
  clickers.foldl (fun s c => s + c.level) 0

/-- achievements.ts `isAchievementMet`: dispatch on the requirement type.
The `|| 0n` / `|| 0` fallbacks on the always-present state fields are the
identity and appear here as `getD 0` on the optional requirement fields
only.  A missing `stat` or `phase` falls through to `false` exactly as the
JavaScript `switch` / strict equality does. -/
def isAchievementMet (a : SimpleAchievement) (state : GameState) : Bool :=
  if a.requirements.type = "resource_total" then
    if a.requirements.resource = some "matchsticks" then
      decide (state.production.totalProduced ≥ a.requirements.amount.getD 0)
    else false
  else if a.requirements.type = "stat_threshold" then
    match a.requirements.stat with
    | some "totalSold" =>
      decide ((state.market.totalSold : ℚ) ≥ a.requirements.value.getD 0)
    | some "totalRevenue" =>
      decide (state.market.totalRevenue ≥ a.requirements.value.getD 0)
    | some "totalAutomationSpent" =>
      decide (state.automation.totalMoneySpent ≥ a.requirements.value.getD 0)
    | some "totalAutoClickers" =>
      decide ((sumClickerLevels state.automation.autoClickers : ℚ) ≥
        a.requirements.value.getD 0)
    | _ => false
  else if a.requirements.type = "phase_reached" then
    match a.requirements.phase with
    | some p => decide (state.progression.currentPhase = p)
    | none => false
  else false

/-- achievements.ts `applyReward`: only the `money` reward type with a
truthy amount credits the ledger. -/
def applyReward (reward : SimpleReward) (gs : GameState) : GameState :=
  if reward.type = "money" then
    if truthyQ reward.amount then
      addResourcesG gs { money := reward.amount }
    else gs
  else gs

/-- The money credited by `applyReward` for one achievement. -/
def rewardMoney (a : SimpleAchievement) : ℚ :=
  if a.reward.type = "money" ∧ truthyQ a.reward.amount then
    a.reward.amount.getD 0
  else 0

/-- The state mutation done for one newly unlocked achievement inside
`checkAchievements`: apply the reward, then `updateAchievements` with the
unlocked list and stats read from the *stale* snapshot `gs0` captured when
the check started (the source reads `state.achievements` from that
snapshot, not from the live store). -/
def unlockStateUpdate (gs0 : GameState) (gs : GameState)
    (a : SimpleAchievement) : GameState :=
  let gs1 := applyReward a.reward gs
  updateAchievements gs1
    { unlocked := some (gs0.achievements.unlocked ++ [a.id])
      stats := some { gs0.achievements.stats with
        totalUnlocked := gs0.achievements.stats.totalUnlocked + 1 } }

/-- The loop body of achievements.ts `checkAchievements`: walk the
registered achievements in order; skip unlocked ones; for each locked one
whose requirement holds in the snapshot `gs0`, flip its flag, credit its
reward and merge the (stale-snapshot) achievement-state update.  Returns
the updated registry, the final game state and the newly unlocked list. -/
def checkLoop (gs0 : GameState) :
    List SimpleAchievement → GameState →
    List SimpleAchievement × GameState × List SimpleAchievement
  | [], gs => ([], gs, [])
  | a :: rest, gs =>
    if a.unlocked then
      let r := checkLoop gs0 rest gs
      (a :: r.1, r.2.1, r.2.2)
    else if isAchievementMet a gs0 then
      let a' := { a with unlocked := true }
      let r := checkLoop gs0 rest (unlockStateUpdate gs0 gs a)
      (a' :: r.1, r.2.1, a' :: r.2.2)
    else
      let r := checkLoop gs0 rest gs
      (a :: r.1, r.2.1, r.2.2)

/-- achievements.ts `checkAchievements()`: the loop above with the snapshot
taken at entry. -/
def checkAchievements (achs : List SimpleAchievement) (gs : GameState) :
    List SimpleAchievement × GameState × List SimpleAchievement :=
  checkLoop gs achs gs

/-- Modelled from the spec: `syncWithGameState()` is called by the
achievement tests (part of the repository) but is absent from the
`AchievementService` source provided; per the spec it "reconciles the
evaluator's internal unlocked flags with the persisted unlocked-id list",
so each registered achievement's flag is set to whether its id appears in
`state.achievements.unlocked`. -/
def syncWithGameState (achs : List SimpleAchievement) (gs : GameState) :
    List SimpleAchievement :=
  achs.map fun a =>
    { a with unlocked := decide (a.id ∈ gs.achievements.unlocked) }

/-- market.ts `calculateMarketImpact`: no impact up to 1000 units, then up
to 20% price reduction. -/
def calculateMarketImpact (amount : Int) : ℚ :=
  let amountNumber : ℚ := (amount : ℚ)
  let impactThreshold : ℚ := 1000
  if amountNumber ≤ impactThreshold then 1
  else
    let excessAmount := amountNumber - impactThreshold
    let impactFactor := min (2/10 : ℚ) (excessAmount / 10000)
    1 - impactFactor

/-- market.ts `calculateMarketShare`. -/
def calculateMarketShare (totalSold : Int) : ℚ :=
  min 100 ((totalSold : ℚ) / 1000000 * 100)

/-- market.ts `updatePriceAfterTrade`: up to 5% immediate haircut on the
traded price, floored at 0.1. -/
def updatePriceAfterTrade (gs : GameState) (amount : Int) (price : ℚ) :
    GameState :=
  let priceImpact := min (5/100 : ℚ) ((amount : ℚ) / 5000)
  let newPrice := price * (1 - priceImpact)
  updateMarket gs { currentPrice := some (max (1/10 : ℚ) newPrice) }

/-- The result record of `MarketService.sellMatchsticks` (the transaction
sub-record, which only mirrors fields already present here, is omitted). -/
structure MarketSellResult where
  success : Bool
  revenue : ℚ
  pricePerUnit : ℚ
  remainingMatchsticks : Int
  marketShare : ℚ
  deriving Repr, DecidableEq

/-- market.ts `MarketService.sellMatchsticks`.  Invalid amounts throw and
land in the `catch`, which returns a failure result with the state
untouched.  On success the flow is: `gameActions.sellMatchsticks` (which
already debits the matchsticks, credits `amount * currentPrice` and bumps
the totals), then `addResources({ money: revenue })` *again* with the
impact-adjusted revenue, then a second `totalSold` / `totalRevenue` bump,
the post-trade price haircut, and an achievement check.  The
service-private `recentTrades` ring (cap 50) is bookkeeping no claim
touches and is not part of the embedded state. -/
def marketSellMatchsticks (achs : List SimpleAchievement) (gs : GameState)
    (amount : Int) :
    MarketSellResult × GameState × List SimpleAchievement :=
  let availableMatchsticks := gs.resources.matchsticks
  let failResult : MarketSellResult :=
    { success := false, revenue := 0, pricePerUnit := gs.market.currentPrice
      remainingMatchsticks := availableMatchsticks, marketShare := 0 }
  if amount ≤ 0 then (failResult, gs, achs)
  else if amount > availableMatchsticks then (failResult, gs, achs)
  else
    let pricePerUnit := gs.market.currentPrice
    let marketImpactMultiplier := calculateMarketImpact amount
    let effectivePrice := pricePerUnit * marketImpactMultiplier
    let revenue := (amount : ℚ) * effectivePrice
    match gameSellMatchsticks gs amount with
    | (false, gs1) =>
      ({ success := false, revenue := 0, pricePerUnit := pricePerUnit
         remainingMatchsticks := availableMatchsticks, marketShare := 0 },
       gs1, achs)
    | (true, gs1) =>
      let gs2 := addResourcesG gs1 { money := some revenue }
      let newTotalSold := SafeBigInt.add gs2.market.totalSold amount
      let newTotalRevenue := gs2.market.totalRevenue + revenue
      let gs3 := updateMarket gs2
        { totalSold := some newTotalSold
          totalRevenue := some newTotalRevenue }
      let gs4 := updatePriceAfterTrade gs3 amount effectivePrice
      let (achs', gs5, _) := checkAchievements achs gs4
      ({ success := true, revenue := revenue, pricePerUnit := effectivePrice
         remainingMatchsticks := gs2.resources.matchsticks
         marketShare := calculateMarketShare newTotalSold }, gs5, achs')

/-- production.ts `ClickCombo`.  `count` is a JavaScript number; it is kept
as `ℚ` because the combo math (`Math.min`, `1 + (count - 1) * 0.01`) is
plain number arithmetic. -/
structure ClickCombo where
  count : ℚ
  startTime : ℚ
  multiplier : ℚ
  maxCombo : ℚ
  decayRate : ℚ
  deriving Repr, DecidableEq

/-- production.ts `ProductionStats`. -/
structure ProductionStats where
  totalClicks : ℚ
  totalProduced : Int
  averageClickRate : ℚ
  maxCombo : ℚ
  sessionProduction : Int
  sessionClicks : ℚ
  sessionStartTime : ℚ
  deriving Repr, DecidableEq

/-- The private mutable fields of the `ProductionService` singleton. -/
structure ProductionServiceState where
  clickCombo : ClickCombo
  productionStats : ProductionStats
  lastClickTime : ℚ
  recentClicks : List ℚ
  deriving Repr, DecidableEq

/-- The `ProductionService` constructor state (session started at `now`). -/
def initialProductionService (now : ℚ) : ProductionServiceState :=
  { clickCombo :=
      { count := 0, startTime := 0, multiplier := 1, maxCombo := 50
        decayRate := 1/2 }
    productionStats :=
      { totalClicks := 0, totalProduced := 0, averageClickRate := 0
        maxCombo := 0, sessionProduction := 0, sessionClicks := 0
        sessionStartTime := now }
    lastClickTime := 0
    recentClicks := [] }

/-- production.ts `updateClickStats`: bumps the click counters, sets
`lastClickTime` to the current time, and keeps only the last 10 seconds of
click timestamps. -/
def updateClickStats (svc : ProductionServiceState) (clickCount : Int)
    (currentTime : ℚ) : ProductionServiceState :=
  let tenSecondsAgo := currentTime - 10000
  { svc with
    productionStats := { svc.productionStats with
      totalClicks := svc.productionStats.totalClicks + (clickCount : ℚ)
      sessionClicks := svc.productionStats.sessionClicks + (clickCount : ℚ) }
    lastClickTime := currentTime
    recentClicks :=
      (svc.recentClicks ++ [currentTime]).filter (fun t => t > tenSecondsAgo) }

/-- production.ts `updateClickCombo`: if more than 2000ms passed since
`lastClickTime` the combo resets to count 1 / multiplier 1, otherwise the
count increments (capped at `maxCombo`) and the multiplier is
`1 + (count - 1) * 0.01`; the max-combo statistic is refreshed.  Returns
the new service state and the combo multiplier. -/
def updateClickCombo (svc : ProductionServiceState) (currentTime : ℚ) :
    ProductionServiceState × ℚ :=
  let timeSinceLastClick := currentTime - svc.lastClickTime
  let comboDecayTime : ℚ := 2000
  let combo :=
    if timeSinceLastClick > comboDecayTime then
      { svc.clickCombo with
        count := 1, startTime := currentTime, multiplier := 1 }
    else
      let newCount := min (svc.clickCombo.count + 1) svc.clickCombo.maxCombo
      { svc.clickCombo with
        count := newCount, multiplier := 1 + (newCount - 1) * (1/100) }
  let stats := { svc.productionStats with
    maxCombo := max svc.productionStats.maxCombo combo.count }
  ({ svc with clickCombo := combo, productionStats := stats },
   combo.multiplier)

/-- production.ts `calculateTotalMultiplier`: the combo multiplier times
every positive entry of `state.production.multipliers` (the
`typeof multiplier === 'number'` guard always holds in the typed state). -/
def calculateTotalMultiplier (gs : GameState) (comboMultiplier : ℚ) : ℚ :=
  gs.production.multipliers.foldl
    (fun total p => if p.2 > 0 then total * p.2 else total) comboMultiplier

/-- The record returned by `ProductionService.produceMatchsticks`. -/
structure ProduceResult where
  produced : Int
  comboMultiplier : ℚ
  totalMultiplier : ℚ
  comboCount : ℚ
  deriving Repr, DecidableEq

/-- production.ts `ProductionService.produceMatchsticks(clickCount)` at
clock time `currentTime`: update click statistics (which already overwrites
`lastClickTime`), update the combo, multiply out the production, floor it,
raise it to at least `clickCount`, credit the ledger and `totalProduced`,
update the service statistics, and run the achievement check.  Haptic
feedback and event emission touch nothing embedded here. -/
def produceMatchsticks (svc : ProductionServiceState)
    (achs : List SimpleAchievement) (gs : GameState) (clickCount : Int)
    (currentTime : ℚ) :
    ProduceResult × ProductionServiceState × List SimpleAchievement ×
      GameState :=
  let gs0 := gs
  let svc1 := updateClickStats svc clickCount currentTime
  let baseProduction := gs0.production.manualRate * (clickCount : ℚ)
  let (svc2, comboMultiplier) := updateClickCombo svc1 currentTime
  let totalMultiplier := calculateTotalMultiplier gs0 comboMultiplier
  let finalProduction : Int := ⌊baseProduction * totalMultiplier⌋
  let actualProduction :=
    if finalProduction > clickCount then finalProduction else clickCount
  let gsA := addResourcesG gs0 { matchsticks := some actualProduction }
  let gsB := updateProduction gsA
    { totalProduced :=
        some (SafeBigInt.add gs0.production.totalProduced actualProduction) }
    currentTime
  let svc3 := { svc2 with productionStats := { svc2.productionStats with
    totalProduced :=
      SafeBigInt.add svc2.productionStats.totalProduced actualProduction
    sessionProduction :=
      SafeBigInt.add svc2.productionStats.sessionProduction
        actualProduction } }
  let (achs', gsC, _) := checkAchievements achs gsB
  ({ produced := actualProduction, comboMultiplier := comboMultiplier
     totalMultiplier := totalMultiplier
     comboCount := svc3.clickCombo.count }, svc3, achs', gsC)

/-- Round a rational to the nearest integer, ties to the even integer
(IEEE 754 round-to-nearest-even). -/
def roundHalfEven (x : ℚ) : ℤ :=
  if x - ⌊x⌋ < 1/2 then ⌊x⌋
  else if 1/2 < x - ⌊x⌋ then ⌊x⌋ + 1
  else if ⌊x⌋ % 2 = 0 then ⌊x⌋ else ⌊x⌋ + 1

/-- `⌊log₂ q⌋` of a positive rational, by repeated doubling/halving; the
fuel bound 1200 covers every binary64 magnitude (2^-1074 .. 2^1024). -/
def floorLog2Aux (fuel : Nat) (q : ℚ) (e : ℤ) : ℤ :=
  if fuel = 0 then e
  else if q < 1 then floorLog2Aux (fuel - 1) (2 * q) (e - 1)
  else if 2 ≤ q then floorLog2Aux (fuel - 1) (q / 2) (e + 1)
  else e
termination_by fuel
decreasing_by all_goals omega

/-- `⌊log₂ q⌋` for positive `q`. -/
def floorLog2 (q : ℚ) : ℤ := floorLog2Aux 1200 q 0

theorem floorLog2Aux_here (fuel : Nat) (q : ℚ) (e : ℤ)
    (h3 : ¬ fuel = 0) (h1 : ¬ q < 1) (h2 : ¬ 2 ≤ q) :
    floorLog2Aux fuel q e = e := by
  rw [floorLog2Aux]
  simp [h1, h2, h3]

theorem floorLog2Aux_halve (fuel : Nat) (q : ℚ) (e : ℤ)
    (h3 : ¬ fuel = 0) (h2 : 2 ≤ q) :
    floorLog2Aux fuel q e = floorLog2Aux (fuel - 1) (q / 2) (e + 1) := by
  rw [floorLog2Aux]
  have h1 : ¬ q < 1 := by intro h; linarith
  simp [h1, h2, h3]

theorem floorLog2Aux_double (fuel : Nat) (q : ℚ) (e : ℤ)
    (h3 : ¬ fuel = 0) (h1 : q < 1) :
    floorLog2Aux fuel q e = floorLog2Aux (fuel - 1) (2 * q) (e - 1) := by
  rw [floorLog2Aux]
  simp [h1, h3]

/-- The binary64 value nearest a positive rational, as an exact rational:
53 significant bits at exponent `⌊log₂ q⌋`, ties to even.  Overflow to
infinity and subnormal quantization are far outside the magnitude range of
every quantity in this development and are not modelled. -/
def toF64Pos (q : ℚ) : ℚ :=
  ((roundHalfEven (q * (2:ℚ) ^ (52 - floorLog2 q)) : ℤ) : ℚ) *
    (2:ℚ) ^ (floorLog2 q - 52)

/-- The binary64 (JavaScript `number`) value nearest a rational: the value
denoted by a decimal literal, and the exact result of each IEEE-rounded
arithmetic operation. -/
def toF64 (q : ℚ) : ℚ :=
  if q = 0 then 0 else (if q < 0 then -1 else 1) * toF64Pos |q|

/-- JavaScript `Math.pow` on a nonnegative integer exponent, modelled as
the correctly rounded power of the binary64 argument (`Math.pow` is
implementation-approximated; the engine's values agree with correct
rounding at every input reached in this development, e.g.
`Math.pow(1.2, 3) = 1.7279999999999998`). -/
def mathPow (a : ℚ) (n : Nat) : ℚ := toF64 (a ^ n)

/-- automation.ts `AutoClickerConfig.unlockRequirement` (the facility
variant adds `autoClickersOwned`; `checkUnlockRequirement` handles all four
keys). -/
structure AutoUnlockRequirement where
  totalProduced : Option Int := none
  totalRevenue : Option ℚ := none
  autoClickersOwned : Option ℚ := none
  gamePhase : Option String := none
  deriving Repr, DecidableEq

/-- automation.ts `AutoClickerConfig`.  `maxLevel` is an integer literal in
every config, embedded as `Nat` to match the `Nat`-valued stored level. -/
structure AutoClickerConfig where
  id : String
  name : String
  description : String
  baseCost : ℚ
  costMultiplier : ℚ
  baseClicksPerSecond : ℚ
  maxLevel : Nat
  unlockRequirement : Option AutoUnlockRequirement := none
  deriving Repr, DecidableEq

/-- automation.ts `autoClickerConfigs[0]`.  The decimal literal `1.15` in
the source denotes the nearest binary64 value, `toF64 (115/100)`; every
other field of every config is exactly representable. -/
def basicClickerConfig : AutoClickerConfig :=
  { id := "basic_clicker", name := "Basic Auto-Clicker"
    description := "Automatically clicks once per second"
    baseCost := 50, costMultiplier := toF64 (115/100)
    baseClicksPerSecond := 1, maxLevel := 50 }

/-- automation.ts `autoClickerConfigs[1]` (`1.2` denotes `toF64 (12/10)`). -/
def fastClickerConfig : AutoClickerConfig :=
  { id := "fast_clicker", name := "Fast Auto-Clicker"
    description := "Clicks 3 times per second with improved efficiency"
    baseCost := 250, costMultiplier := toF64 (12/10)
    baseClicksPerSecond := 3, maxLevel := 25
    unlockRequirement := some { totalProduced := some 1000 } }

/-- automation.ts `autoClickerConfigs[2]` (`1.25` denotes `toF64 (125/100)`,
which equals `5/4` exactly). -/
def turboClickerConfig : AutoClickerConfig :=
  { id := "turbo_clicker", name := "Turbo Auto-Clicker"
    description := "High-speed clicking with 8 clicks per second"
    baseCost := 1000, costMultiplier := toF64 (125/100)
    baseClicksPerSecond := 8, maxLevel := 10
    unlockRequirement := some
      { totalProduced := some 10000, totalRevenue := some 1000 } }

/-- automation.ts `autoClickerConfigs[3]` (`1.3` denotes `toF64 (13/10)`). -/
def quantumClickerConfig : AutoClickerConfig :=
  { id := "quantum_clicker", name := "Quantum Auto-Clicker"
    description := "Theoretical physics-powered clicking at 20/second"
    baseCost := 5000, costMultiplier := toF64 (13/10)
    baseClicksPerSecond := 20, maxLevel := 5
    unlockRequirement := some
      { totalProduced := some 100000, totalRevenue := some 10000 } }

/-- automation.ts `autoClickerConfigs`: the four built-in auto-clickers. -/
def autoClickerConfigs : List AutoClickerConfig :=
  [ basicClickerConfig, fastClickerConfig, turboClickerConfig
  , quantumClickerConfig ]

/-- JavaScript truthiness of a possibly-absent string (`undefined` and the
empty string are falsy). -/
def truthyStr : Option String → Bool
  | none => false
  | some s => s ≠ ""

/-- automation.ts `checkUnlockRequirement`: a missing requirement passes;
otherwise each truthy key is checked in turn and the first shortfall
fails. -/
def checkUnlockRequirement (requirement : Option AutoUnlockRequirement)
    (gs : GameState) : Bool :=
  match requirement with
  | none => true
  | some r =>
    if truthyInt r.totalProduced ∧
        gs.production.totalProduced < r.totalProduced.getD 0 then false
    else if truthyQ r.totalRevenue ∧
        gs.market.totalRevenue < r.totalRevenue.getD 0 then false
    else if truthyQ r.autoClickersOwned ∧
        (sumClickerLevels gs.automation.autoClickers : ℚ) <
          r.autoClickersOwned.getD 0 then false
    else if truthyStr r.gamePhase ∧
        gs.progression.currentPhase ≠ r.gamePhase.getD "" then false
    else true

/-- automation.ts `calculateAutoClickerCost`:
`Math.floor(config.baseCost * Math.pow(config.costMultiplier,
currentLevel))`, evaluated in binary64: the power is `Math.pow`, the
product is one IEEE-rounded multiplication, and `Math.floor` on the
resulting double is exact. -/
def calculateAutoClickerCost (config : AutoClickerConfig)
    (currentLevel : Nat) : ℚ :=
  (⌊ toF64 (config.baseCost * mathPow config.costMultiplier currentLevel)
    ⌋ : Int)

/-- Replace the first auto-clicker with the given id by a copy at the new
level (`updatedClickers[findIndex(...)] = { ...existingClicker, level }`). -/
def setFirstClickerLevel : List AutoClicker → String → Nat →
    List AutoClicker
  | [], _, _ => []
  | c :: rest, cid, lvl =>
    if c.id = cid then { c with level := lvl } :: rest
    else c :: setFirstClickerLevel rest cid lvl

/-- The result record of `AutomationService.purchaseAutoClicker`. -/
structure PurchaseResult where
  success : Bool
  cost : Option ℚ := none
  newLevel : Option Nat := none
  error : Option String := none
  deriving Repr, DecidableEq

/-- automation.ts `AutomationService.purchaseAutoClicker`: look the config
up, then check max level, unlock requirement and funds in that order, each
with its own error string; on success debit the cost, set or create the
clicker entry, accumulate `totalMoneySpent` (from the entry snapshot) and
run the achievement check. -/
def purchaseAutoClicker (achs : List SimpleAchievement) (gs : GameState)
    (clickerId : String) :
    PurchaseResult × GameState × List SimpleAchievement :=
  match autoClickerConfigs.find? (fun c => c.id = clickerId) with
  | none => ({ success := false, error := some "Auto-clicker not found" },
             gs, achs)
  | some config =>
    let existingClicker :=
      gs.automation.autoClickers.find? (fun c => c.id = clickerId)
    let currentLevel := (existingClicker.map (fun c => c.level)).getD 0
    if currentLevel ≥ config.maxLevel then
      ({ success := false, error := some "Maximum level reached" }, gs, achs)
    else if ¬ checkUnlockRequirement config.unlockRequirement gs then
      ({ success := false, error := some "Unlock requirements not met" },
       gs, achs)
    else
      let cost := calculateAutoClickerCost config currentLevel
      if gs.resources.money < cost then
        ({ success := false, error := some "Insufficient funds" }, gs, achs)
      else
        let gs1 := addResourcesG gs { money := some (-cost) }
        let newLevel := currentLevel + 1
        let updatedClickers :=
          if existingClicker.isSome then
            setFirstClickerLevel gs.automation.autoClickers clickerId
              newLevel
          else
            gs.automation.autoClickers ++
              [{ id := clickerId, level := newLevel, isActive := true
                 totalClicks := 0, efficiency := 1 }]
        let gs2 := updateAutomation gs1
          { autoClickers := some updatedClickers }
        let newTotalSpent := gs.automation.totalMoneySpent + cost
        let gs3 := updateAutomation gs2
          { totalMoneySpent := some newTotalSpent }
        let (achs', gs4, _) := checkAchievements achs gs3
        ({ success := true, cost := some cost, newLevel := some newLevel },
         gs4, achs')

/-- The character for a decimal digit (`'0'` + d). -/
def digitToChar (d : Nat) : Char := Char.ofNat (48 + d)

/-- The decimal digit denoted by a character. -/
def charToDigit (c : Char) : Nat := c.toNat - 48

/-- Whether a character is a decimal digit. -/
def isDigitChar (c : Char) : Bool := 48 ≤ c.toNat ∧ c.toNat ≤ 57

/-- JavaScript `BigInt.prototype.toString` for nonnegative values: the
usual decimal numeral. -/
def jsNatToString (n : Nat) : String :=
  if n = 0 then "0"
  else String.mk (((Nat.digits 10 n).map digitToChar).reverse)

/-- Parse an all-digit character list as a decimal numeral. -/
def parseDigits (cs : List Char) : Option Nat :=
  if cs ≠ [] ∧ cs.all isDigitChar then
    some (Nat.ofDigits 10 ((cs.map charToDigit).reverse))
  else none

/-- JavaScript `BigInt.prototype.toString`: decimal, `-`-prefixed when
negative. -/
def jsIntToString (b : Int) : String :=
  if b < 0 then "-" ++ jsNatToString b.natAbs else jsNatToString b.natAbs

/-- The character-level body of `BigInt(string)` on canonical decimal
numerals (the only strings the reviver ever feeds it); any other string
throws, modelled as `none`. -/
def parseIntChars (cs : List Char) : Option Int :=
  if cs.head? = some '-' then
    match parseDigits cs.tail with
    | some n => some (-(n : Int))
    | none => none
  else
    match parseDigits cs with
    | some n => some ((n : Int))
    | none => none

/-- `BigInt(string)` on the strings produced by `jsIntToString`. -/
def parseJsInt (s : String) : Option Int := parseIntChars s.toList

theorem toNat_digitToChar (d : Nat) (h : d < 10) :
    (digitToChar d).toNat = 48 + d := by
  interval_cases d <;> decide

theorem charToDigit_digitToChar (d : Nat) (h : d < 10) :
    charToDigit (digitToChar d) = d := by
  interval_cases d <;> decide

theorem isDigitChar_digitToChar (d : Nat) (h : d < 10) :
    isDigitChar (digitToChar d) = true := by
  interval_cases d <;> decide

/-- Parsing inverts printing on naturals. -/
theorem parse_print_nat (n : Nat) :
    parseDigits (jsNatToString n).toList = some n := by
  by_cases h : n = 0
  · subst h; decide
  · unfold jsNatToString
    rw [if_neg h]
    have hne : Nat.digits 10 n ≠ [] := Nat.digits_ne_nil_iff_ne_zero.mpr h
    have hlt : ∀ d ∈ Nat.digits 10 n, d < 10 := fun d hd =>
      Nat.digits_lt_base (by norm_num) hd
    unfold parseDigits
    have htl : (String.mk (((Nat.digits 10 n).map digitToChar).reverse)).toList
        = ((Nat.digits 10 n).map digitToChar).reverse := rfl
    rw [htl]
    have hne2 : ((Nat.digits 10 n).map digitToChar).reverse ≠ [] := by
      simp [hne]
    have hall : (((Nat.digits 10 n).map digitToChar).reverse).all isDigitChar
        = true := by
      rw [List.all_eq_true]
      intro c hc
      rw [List.mem_reverse, List.mem_map] at hc
      obtain ⟨d, hd, rfl⟩ := hc
      exact isDigitChar_digitToChar d (hlt d hd)
    rw [if_pos ⟨hne2, hall⟩]
    congr 1
    rw [List.map_reverse, List.reverse_reverse, List.map_map]
    have hmap : List.map (charToDigit ∘ digitToChar) (Nat.digits 10 n)
        = List.map id (Nat.digits 10 n) :=
      List.map_congr_left (fun d hd => charToDigit_digitToChar d (hlt d hd))
    rw [hmap, List.map_id, Nat.ofDigits_digits]

/-- Every character of a printed natural is a digit. -/
theorem jsNat_all_digits (n : Nat) :
    ((jsNatToString n).toList).all isDigitChar = true := by
  by_cases h : n = 0
  · subst h; decide
  · unfold jsNatToString
    rw [if_neg h]
    have hlt : ∀ d ∈ Nat.digits 10 n, d < 10 := fun d hd =>
      Nat.digits_lt_base (by norm_num) hd
    rw [List.all_eq_true]
    intro c hc
    rw [show (String.mk (((Nat.digits 10 n).map digitToChar).reverse)).toList
      = ((Nat.digits 10 n).map digitToChar).reverse from rfl] at hc
    rw [List.mem_reverse, List.mem_map] at hc
    obtain ⟨d, hd, rfl⟩ := hc
    exact isDigitChar_digitToChar d (hlt d hd)

/-- A printed natural never starts with a minus sign. -/
theorem jsNat_head_not_dash (n : Nat) :
    ((jsNatToString n).toList).head? ≠ some '-' := by
  have hall := jsNat_all_digits n
  intro hcontra
  cases hcs : (jsNatToString n).toList with
  | nil => rw [hcs] at hcontra; exact Option.noConfusion hcontra
  | cons c rest =>
    rw [hcs] at hcontra hall
    have hc : c = '-' := by
      simpa using hcontra
    subst hc
    rw [List.all_cons] at hall
    have : isDigitChar '-' = true := (Bool.and_eq_true _ _ |>.mp hall).1
    exact absurd this (by decide)

/-- `BigInt(b.toString()) = b`: parsing inverts printing on integers. -/
theorem parse_print_int (b : Int) : parseJsInt (jsIntToString b) = some b := by
  unfold jsIntToString parseJsInt
  by_cases h : b < 0
  · rw [if_pos h]
    have hdata : ("-" ++ jsNatToString b.natAbs).toList
        = '-' :: (jsNatToString b.natAbs).toList := by
      show ("-" ++ jsNatToString b.natAbs).data
        = '-' :: (jsNatToString b.natAbs).data
      rw [String.data_append]
      rfl
    rw [hdata]
    unfold parseIntChars
    simp only [List.head?_cons, List.tail_cons]
    rw [if_pos trivial, parse_print_nat b.natAbs]
    show some (-(b.natAbs : Int)) = some b
    congr 1
    omega
  · rw [if_neg h]
    unfold parseIntChars
    rw [if_neg (jsNat_head_not_dash b.natAbs), parse_print_nat b.natAbs]
    show some ((b.natAbs : Int)) = some b
    congr 1
    omega

/-- A JavaScript value tree as `JSON.stringify` / `JSON.parse` walk it:
JSON leaves plus a `bigint` leaf (which plain JSON cannot carry — the
whole point of the replacer/reviver pair in storage.ts). -/
inductive SData where
  | null
  | bool (b : Bool)
  | num (q : ℚ)
  | str (s : String)
  | int (b : Int)
  | arr (items : List SData)
  | obj (fields : List (String × SData))
  deriving Repr

/-- JavaScript property access on an object's field list. -/
def lookupField (k : String) : List (String × SData) → Option SData
  | [] => none
  | (k', v) :: rest => if k' = k then some v else lookupField k rest

/-- storage.ts `bigIntReplacer` applied to a single value: a `bigint`
becomes a type-tagged object holding its decimal string; everything else
passes through. -/
def bigIntReplacer (value : SData) : SData :=
  match value with
  | .int b => .obj [("__type", .str "bigint"), ("value", .str (jsIntToString b))]
  | v => v

/-- Whether a looked-up `__type` property marks a replacer-tagged bigint
(`value && value.__type === 'bigint'`). -/
def isBigintTag : Option SData → Bool
  | some (.str s) => s = "bigint"
  | _ => false

/-- storage.ts `bigIntReviver` applied to a single value: a tagged object
is turned back into the `bigint` it encodes (`BigInt(value.value)`, which
throws — `none` — if the payload is not a numeral string); everything else
passes through. -/
def bigIntReviver (value : SData) : Option SData :=
  match value with
  | .obj fields =>
    if isBigintTag (lookupField "__type" fields) then
      match lookupField "value" fields with
      | some (.str s) =>
        match parseJsInt s with
        | some b => some (.int b)
        | none => none
      | _ => none
    else some value
  | v => some v

mutual
/-- `JSON.stringify(-, bigIntReplacer)` seen as a tree transformation:
every `bigint` leaf is replaced by its tagged-object encoding. -/
def replacerEncode : SData → SData
  | .int b => .obj [("__type", .str "bigint"), ("value", .str (jsIntToString b))]
  | .arr items => .arr (encodeList items)
  | .obj fields => .obj (encodePairs fields)
  | .null => .null
  | .bool b => .bool b
  | .num q => .num q
  | .str s => .str s
/-- `replacerEncode` over the elements of an array. -/
def encodeList : List SData → List SData
  | [] => []
  | a :: as => replacerEncode a :: encodeList as
/-- `replacerEncode` over the values of an object. -/
def encodePairs : List (String × SData) → List (String × SData)
  | [] => []
  | (k, v) :: rest => (k, replacerEncode v) :: encodePairs rest
end

mutual
/-- `JSON.parse(-, bigIntReviver)` seen as a tree transformation: every
replacer-tagged object becomes a `bigint` leaf again; a tagged object with
a malformed payload throws (`none`). -/
def reviverDecode : SData → Option SData
  | .obj fields =>
    if isBigintTag (lookupField "__type" fields) then
      match lookupField "value" fields with
      | some (.str s) =>
        match parseJsInt s with
        | some b => some (.int b)
        | none => none
      | _ => none
    else
      match decodePairs fields with
      | some d => some (.obj d)
      | none => none
  | .arr items =>
    match decodeList items with
    | some d => some (.arr d)
    | none => none
  | .null => some .null
  | .bool b => some (.bool b)
  | .num q => some (.num q)
  | .str s => some (.str s)
  | .int b => some (.int b)
/-- `reviverDecode` over the elements of an array. -/
def decodeList : List SData → Option (List SData)
  | [] => some []
  | a :: as =>
    match reviverDecode a, decodeList as with
    | some d, some ds => some (d :: ds)
    | _, _ => none
/-- `reviverDecode` over the values of an object. -/
def decodePairs : List (String × SData) → Option (List (String × SData))
  | [] => some []
  | (k, v) :: rest =>
    match reviverDecode v, decodePairs rest with
    | some d, some ds => some ((k, d) :: ds)
    | _, _ => none
end

theorem isBigintTag_none : isBigintTag none = false := rfl

theorem isBigintTag_null : isBigintTag (some .null) = false := rfl

theorem isBigintTag_bool (b : Bool) :
    isBigintTag (some (.bool b)) = false := rfl

theorem isBigintTag_num (q : ℚ) : isBigintTag (some (.num q)) = false := rfl

theorem isBigintTag_int (b : Int) : isBigintTag (some (.int b)) = false := rfl

theorem isBigintTag_arr (l : List SData) :
    isBigintTag (some (.arr l)) = false := rfl

theorem isBigintTag_obj (l : List (String × SData)) :
    isBigintTag (some (.obj l)) = false := rfl

theorem isBigintTag_str (s : String) :
    isBigintTag (some (.str s)) = decide (s = "bigint") := rfl

theorem rt_null : reviverDecode (replacerEncode .null) = some .null := rfl

theorem rt_bool (b : Bool) :
    reviverDecode (replacerEncode (.bool b)) = some (.bool b) := rfl

theorem rt_num (q : ℚ) :
    reviverDecode (replacerEncode (.num q)) = some (.num q) := rfl

theorem rt_str (s : String) :
    reviverDecode (replacerEncode (.str s)) = some (.str s) := rfl

/-- A `bigint` leaf survives the replacer/reviver round trip. -/
theorem rt_int (b : Int) :
    reviverDecode (replacerEncode (.int b)) = some (.int b) := by
  simp [replacerEncode, reviverDecode, lookupField, isBigintTag_str,
    parse_print_int b]

/-- Round trip over a mapped array, given a round-tripping element
encoding. -/
theorem decodeList_encodeList_map (f : α → SData)
    (hf : ∀ x, reviverDecode (replacerEncode (f x)) = some (f x))
    (l : List α) :
    decodeList (encodeList (l.map f)) = some (l.map f) := by
  induction l with
  | nil => rfl
  | cons a as ih => simp [encodeList, decodeList, hf a, ih]

/-- Round trip over a mapped association list, given a round-tripping
value encoding. -/
theorem decodePairs_encodePairs_map (f : α → SData)
    (hf : ∀ x, reviverDecode (replacerEncode (f x)) = some (f x))
    (l : List (String × α)) :
    decodePairs (encodePairs (l.map fun p => (p.1, f p.2)))
      = some (l.map fun p => (p.1, f p.2)) := by
  induction l with
  | nil => rfl
  | cons a as ih => simp [encodePairs, decodePairs, hf a.2, ih]

/-- An arbitrary-keyed map whose encoded values are never strings cannot
look like a replacer tag, whatever its keys are. -/
theorem isBigintTag_map_assoc (f : α → SData)
    (hf : ∀ x, isBigintTag (some (replacerEncode (f x))) = false)
    (k : String) (l : List (String × α)) :
    isBigintTag (lookupField k
      (encodePairs (l.map fun p => (p.1, f p.2)))) = false := by
  induction l with
  | nil => rfl
  | cons a as ih =>
    by_cases h : a.1 = k <;> simp [encodePairs, lookupField, h, hf a.2, ih]

/-- Unfolding lemma for `replacerEncode` (kept out of direct `simp`
unfolding so that composite rewrites stay syntactic). -/
@[simp] theorem encode_null : replacerEncode .null = .null := by
  simp [replacerEncode]

@[simp] theorem encode_bool (b : Bool) :
    replacerEncode (.bool b) = .bool b := by simp [replacerEncode]

@[simp] theorem encode_num (q : ℚ) :
    replacerEncode (.num q) = .num q := by simp [replacerEncode]

@[simp] theorem encode_str (s : String) :
    replacerEncode (.str s) = .str s := by simp [replacerEncode]

@[simp] theorem encode_int (b : Int) :
    replacerEncode (.int b) =
      .obj [("__type", .str "bigint"), ("value", .str (jsIntToString b))] := by
  simp [replacerEncode]

@[simp] theorem encode_arr (items : List SData) :
    replacerEncode (.arr items) = .arr (encodeList items) := by
  simp [replacerEncode]

@[simp] theorem encode_obj (fields : List (String × SData)) :
    replacerEncode (.obj fields) = .obj (encodePairs fields) := by
  simp [replacerEncode]

@[simp] theorem encodeList_nil : encodeList [] = [] := by simp [encodeList]

@[simp] theorem encodeList_cons (a : SData) (as : List SData) :
    encodeList (a :: as) = replacerEncode a :: encodeList as := by
  simp [encodeList]

@[simp] theorem encodePairs_nil : encodePairs [] = [] := by
  simp [encodePairs]

@[simp] theorem encodePairs_cons (k : String) (v : SData)
    (rest : List (String × SData)) :
    encodePairs ((k, v) :: rest) = (k, replacerEncode v) :: encodePairs rest := by
  simp [encodePairs]

@[simp] theorem decode_null : reviverDecode .null = some .null := by
  simp [reviverDecode]

@[simp] theorem decode_bool (b : Bool) :
    reviverDecode (.bool b) = some (.bool b) := by simp [reviverDecode]

@[simp] theorem decode_num (q : ℚ) :
    reviverDecode (.num q) = some (.num q) := by simp [reviverDecode]

@[simp] theorem decode_str (s : String) :
    reviverDecode (.str s) = some (.str s) := by simp [reviverDecode]

@[simp] theorem decode_int (b : Int) :
    reviverDecode (.int b) = some (.int b) := by simp [reviverDecode]

@[simp] theorem decode_arr (items : List SData) :
    reviverDecode (.arr items) =
      match decodeList items with
      | some d => some (.arr d)
      | none => none := by
  simp [reviverDecode]

@[simp] theorem decode_obj (fields : List (String × SData)) :
    reviverDecode (.obj fields) =
      if isBigintTag (lookupField "__type" fields) then
        match lookupField "value" fields with
        | some (.str s) =>
          match parseJsInt s with
          | some b => some (.int b)
          | none => none
        | _ => none
      else
        match decodePairs fields with
        | some d => some (.obj d)
        | none => none := by
  rw [reviverDecode]

@[simp] theorem decodeList_nil : decodeList [] = some [] := by
  simp [decodeList]

@[simp] theorem decodeList_cons (a : SData) (as : List SData) :
    decodeList (a :: as) =
      match reviverDecode a, decodeList as with
      | some d, some ds => some (d :: ds)
      | _, _ => none := by
  rw [decodeList]

@[simp] theorem decodePairs_nil : decodePairs [] = some [] := by
  simp [decodePairs]

@[simp] theorem decodePairs_cons (k : String) (v : SData)
    (rest : List (String × SData)) :
    decodePairs ((k, v) :: rest) =
      match reviverDecode v, decodePairs rest with
      | some d, some ds => some ((k, d) :: ds)
      | _, _ => none := by
  rw [decodePairs]

attribute [simp] isBigintTag_none isBigintTag_null isBigintTag_bool
  isBigintTag_num isBigintTag_int isBigintTag_arr isBigintTag_obj
  isBigintTag_str parse_print_int

/-- A possibly-absent object property: `JSON.stringify` omits properties
whose value is `undefined`, so a `none` contributes no field. -/
def optField (k : String) (f : α → SData) : Option α → List (String × SData)
  | none => []
  | some v => [(k, f v)]

/-- The value tree of a `ResourceState`. -/
def ResourceState.toS (r : ResourceState) : SData :=
  .obj [("matchsticks", .int r.matchsticks), ("money", .num r.money),
        ("wood", .num r.wood), ("reputation", .num r.reputation)]

theorem rt_resourceState (r : ResourceState) :
    reviverDecode (replacerEncode r.toS) = some r.toS := by
  simp [ResourceState.toS, lookupField]

attribute [simp] rt_resourceState

/-- The value tree of a `ProductionState`. -/
def ProductionState.toS (p : ProductionState) : SData :=
  .obj [("manualRate", .num p.manualRate),
        ("automatedRate", .num p.automatedRate),
        ("multipliers", .obj (p.multipliers.map fun q => (q.1, .num q.2))),
        ("lastUpdate", .num p.lastUpdate),
        ("totalProduced", .int p.totalProduced)]

theorem rt_productionState (p : ProductionState) :
    reviverDecode (replacerEncode p.toS) = some p.toS := by
  simp [ProductionState.toS, lookupField,
    decodePairs_encodePairs_map SData.num (fun q => rt_num q),
    isBigintTag_map_assoc SData.num (fun q => by simp)]

attribute [simp] rt_productionState

/-- The value tree of a `PriceHistoryEntry`. -/
def PriceHistoryEntry.toS (e : PriceHistoryEntry) : SData :=
  .obj [("timestamp", .num e.timestamp), ("price", .num e.price),
        ("volume", .num e.volume), ("condition", .str e.condition)]

theorem rt_priceHistoryEntry (e : PriceHistoryEntry) :
    reviverDecode (replacerEncode e.toS) = some e.toS := by
  simp [PriceHistoryEntry.toS, lookupField]

/-- The value tree of a `MarketCondition`. -/
def MarketCondition.toS (c : MarketCondition) : SData :=
  .obj [("priceMultiplier", .num c.priceMultiplier),
        ("demandLevel", .str c.demandLevel), ("trend", .str c.trend),
        ("duration", .num c.duration), ("description", .str c.description)]

theorem rt_marketCondition (c : MarketCondition) :
    reviverDecode (replacerEncode c.toS) = some c.toS := by
  simp [MarketCondition.toS, lookupField]

attribute [simp] rt_marketCondition

/-- The value tree of a `MarketState`. -/
def MarketState.toS (m : MarketState) : SData :=
  .obj ([("currentPrice", .num m.currentPrice),
         ("basePrice", .num m.basePrice),
         ("priceHistory", .arr (m.priceHistory.map PriceHistoryEntry.toS))]
    ++ optField "condition" MarketCondition.toS m.condition
    ++ [("autoSellEnabled", .bool m.autoSellEnabled),
        ("autoSellThreshold", .num m.autoSellThreshold),
        ("totalSold", .int m.totalSold),
        ("totalRevenue", .num m.totalRevenue)])

theorem rt_marketState (m : MarketState) :
    reviverDecode (replacerEncode m.toS) = some m.toS := by
  cases h : m.condition <;>
    simp [MarketState.toS, optField, h, lookupField,
      decodeList_encodeList_map PriceHistoryEntry.toS rt_priceHistoryEntry]

attribute [simp] rt_marketState

/-- The value tree of an `AutoClicker` entry. -/
def AutoClicker.toS (c : AutoClicker) : SData :=
  .obj [("id", .str c.id), ("level", .num (c.level : ℚ)),
        ("isActive", .bool c.isActive), ("totalClicks", .int c.totalClicks),
        ("efficiency", .num c.efficiency)]

theorem rt_autoClicker (c : AutoClicker) :
    reviverDecode (replacerEncode c.toS) = some c.toS := by
  simp [AutoClicker.toS, lookupField]

/-- The value tree of an `AutoSellSettings`. -/
def AutoSellSettings.toS (s : AutoSellSettings) : SData :=
  .obj [("enabled", .bool s.enabled), ("threshold", .num s.threshold),
        ("maxPercentage", .num s.maxPercentage),
        ("priceThreshold", .num s.priceThreshold),
        ("smartSelling", .bool s.smartSelling)]

theorem rt_autoSellSettings (s : AutoSellSettings) :
    reviverDecode (replacerEncode s.toS) = some s.toS := by
  simp [AutoSellSettings.toS, lookupField]

attribute [simp] rt_autoSellSettings

/-- The value tree of a `ProductionMultiplier`. -/
def ProductionMultiplierT.toS (m : ProductionMultiplierT) : SData :=
  .obj [("id", .str m.id), ("name", .str m.name),
        ("description", .str m.description),
        ("multiplier", .num m.multiplier), ("target", .str m.target),
        ("isActive", .bool m.isActive), ("source", .str m.source)]

theorem rt_productionMultiplier (m : ProductionMultiplierT) :
    reviverDecode (replacerEncode m.toS) = some m.toS := by
  simp [ProductionMultiplierT.toS, lookupField]

/-- The value tree of an `AutomationState`. -/
def AutomationState.toS (a : AutomationState) : SData :=
  .obj [("autoClickers", .arr (a.autoClickers.map AutoClicker.toS)),
        ("autoSellEnabled", .bool a.autoSellEnabled),
        ("autoSellSettings", a.autoSellSettings.toS),
        ("multipliers", .arr (a.multipliers.map ProductionMultiplierT.toS)),
        ("totalMoneySpent", .num a.totalMoneySpent),
        ("lastUpdate", .num a.lastUpdate)]

theorem rt_automationState (a : AutomationState) :
    reviverDecode (replacerEncode a.toS) = some a.toS := by
  simp [AutomationState.toS, lookupField,
    decodeList_encodeList_map AutoClicker.toS rt_autoClicker,
    decodeList_encodeList_map ProductionMultiplierT.toS
      rt_productionMultiplier]

attribute [simp] rt_automationState

/-- The value tree of a `bigint | number | string` union value. -/
def TSNum.toS : TSNum → SData
  | .big b => .int b
  | .num q => .num q
  | .str s => .str s

theorem rt_tsNum (v : TSNum) :
    reviverDecode (replacerEncode v.toS) = some v.toS := by
  cases v with
  | big b => exact rt_int b
  | num q => exact rt_num q
  | str s => exact rt_str s

attribute [simp] rt_tsNum

/-- The value tree of a `number | string` union value. -/
def NumOrStrT.toS : NumOrStrT → SData
  | .num q => .num q
  | .str s => .str s

theorem rt_numOrStr (v : NumOrStrT) :
    reviverDecode (replacerEncode v.toS) = some v.toS := by
  cases v with
  | num q => exact rt_num q
  | str s => exact rt_str s

attribute [simp] rt_numOrStr

/-- The value tree of an `AchievementRequirement`. -/
def AchievementRequirementT.toS (r : AchievementRequirementT) : SData :=
  .obj [("type", .str r.type), ("condition", .str r.condition),
        ("target", r.target.toS), ("description", .str r.description)]

theorem rt_achievementRequirement (r : AchievementRequirementT) :
    reviverDecode (replacerEncode r.toS) = some r.toS := by
  simp [AchievementRequirementT.toS, lookupField]

/-- The value tree of an `AchievementReward`. -/
def AchievementRewardT.toS (r : AchievementRewardT) : SData :=
  .obj [("type", .str r.type), ("target", .str r.target),
        ("value", r.value.toS), ("description", .str r.description)]

theorem rt_achievementReward (r : AchievementRewardT) :
    reviverDecode (replacerEncode r.toS) = some r.toS := by
  simp [AchievementRewardT.toS, lookupField]

attribute [simp] rt_achievementReward

/-- The value tree of an `Achievement`. -/
def AchievementT.toS (a : AchievementT) : SData :=
  .obj ([("id", .str a.id), ("name", .str a.name),
         ("description", .str a.description), ("category", .str a.category),
         ("requirements",
           .arr (a.requirements.map AchievementRequirementT.toS))]
    ++ optField "reward" AchievementRewardT.toS a.reward
    ++ [("isSecret", .bool a.isSecret)]
    ++ optField "unlockedAt" SData.num a.unlockedAt
    ++ optField "icon" SData.str a.icon
    ++ [("rarity", .str a.rarity)])

theorem rt_achievementT (a : AchievementT) :
    reviverDecode (replacerEncode a.toS) = some a.toS := by
  cases h1 : a.reward <;> cases h2 : a.unlockedAt <;> cases h3 : a.icon <;>
    simp [AchievementT.toS, optField, h1, h2, h3, lookupField,
      decodeList_encodeList_map AchievementRequirementT.toS
        rt_achievementRequirement]

attribute [simp] rt_achievementT

/-- The value tree of an `AchievementProgress`. -/
def AchievementProgressT.toS (p : AchievementProgressT) : SData :=
  .obj [("achievementId", .str p.achievementId),
        ("currentValue", .num p.currentValue),
        ("targetValue", .num p.targetValue),
        ("percentage", .num p.percentage),
        ("isComplete", .bool p.isComplete),
        ("lastUpdated", .num p.lastUpdated)]

theorem rt_achievementProgress (p : AchievementProgressT) :
    reviverDecode (replacerEncode p.toS) = some p.toS := by
  simp [AchievementProgressT.toS, lookupField]

/-- The value tree of an `AchievementNotification`. -/
def AchievementNotificationT.toS (n : AchievementNotificationT) : SData :=
  .obj [("id", .str n.id), ("achievementId", .str n.achievementId),
        ("timestamp", .num n.timestamp), ("isRead", .bool n.isRead),
        ("achievement", n.achievement.toS)]

theorem rt_achievementNotification (n : AchievementNotificationT) :
    reviverDecode (replacerEncode n.toS) = some n.toS := by
  simp [AchievementNotificationT.toS, lookupField]

/-- The value tree of an `AchievementStats`. -/
def AchievementStats.toS (s : AchievementStats) : SData :=
  .obj ([("totalUnlocked", .num s.totalUnlocked),
         ("totalHidden", .num s.totalHidden),
         ("completionPercentage", .num s.completionPercentage)]
    ++ optField "lastUnlocked" AchievementT.toS s.lastUnlocked
    ++ [("unlockedToday", .num s.unlockedToday)])

theorem rt_achievementStats (s : AchievementStats) :
    reviverDecode (replacerEncode s.toS) = some s.toS := by
  cases h : s.lastUnlocked <;>
    simp [AchievementStats.toS, optField, h, lookupField]

attribute [simp] rt_achievementStats

/-- The value tree of an `AchievementState`. -/
def AchievementState.toS (a : AchievementState) : SData :=
  .obj [("unlocked", .arr (a.unlocked.map SData.str)),
        ("progress",
          .obj (a.progress.map fun p => (p.1, AchievementProgressT.toS p.2))),
        ("notifications",
          .arr (a.notifications.map AchievementNotificationT.toS)),
        ("stats", a.stats.toS)]

theorem rt_achievementState (a : AchievementState) :
    reviverDecode (replacerEncode a.toS) = some a.toS := by
  simp [AchievementState.toS, lookupField,
    decodeList_encodeList_map SData.str rt_str,
    decodeList_encodeList_map AchievementNotificationT.toS
      rt_achievementNotification,
    decodePairs_encodePairs_map AchievementProgressT.toS
      rt_achievementProgress,
    isBigintTag_map_assoc AchievementProgressT.toS (fun p => by
      simp [AchievementProgressT.toS])]

attribute [simp] rt_achievementState

/-- The value tree of an `UnlockRequirement`. -/
def UnlockRequirementT.toS (r : UnlockRequirementT) : SData :=
  .obj [("type", .str r.type), ("condition", .str r.condition),
        ("value", r.value.toS), ("description", .str r.description)]

theorem rt_unlockRequirement (r : UnlockRequirementT) :
    reviverDecode (replacerEncode r.toS) = some r.toS := by
  simp [UnlockRequirementT.toS, lookupField]

attribute [simp] rt_unlockRequirement

/-- The value tree of a `MilestoneReward`. -/
def MilestoneRewardT.toS (r : MilestoneRewardT) : SData :=
  .obj [("type", .str r.type), ("target", .str r.target),
        ("value", r.value.toS), ("description", .str r.description)]

theorem rt_milestoneReward (r : MilestoneRewardT) :
    reviverDecode (replacerEncode r.toS) = some r.toS := by
  simp [MilestoneRewardT.toS, lookupField]

attribute [simp] rt_milestoneReward

/-- The value tree of a `GameMilestone`. -/
def GameMilestone.toS (m : GameMilestone) : SData :=
  .obj ([("id", .str m.id), ("name", .str m.name),
         ("description", .str m.description),
         ("requirement", m.requirement.toS)]
    ++ optField "reward" MilestoneRewardT.toS m.reward
    ++ [("isCompleted", .bool m.isCompleted)]
    ++ optField "completedAt" SData.num m.completedAt
    ++ [("category", .str m.category)])

theorem rt_gameMilestone (m : GameMilestone) :
    reviverDecode (replacerEncode m.toS) = some m.toS := by
  cases h1 : m.reward <;> cases h2 : m.completedAt <;>
    simp [GameMilestone.toS, optField, h1, h2, lookupField]

/-- The value tree of a `ProgressionState`. -/
def ProgressionState.toS (p : ProgressionState) : SData :=
  .obj [("currentPhase", .str p.currentPhase),
        ("unlockedFeatures", .arr (p.unlockedFeatures.map SData.str)),
        ("completedTutorials", .arr (p.completedTutorials.map SData.str)),
        ("milestones", .arr (p.milestones.map GameMilestone.toS)),
        ("worldConversionProgress", .num p.worldConversionProgress),
        ("prestigeLevel", .num p.prestigeLevel)]

theorem rt_progressionState (p : ProgressionState) :
    reviverDecode (replacerEncode p.toS) = some p.toS := by
  simp [ProgressionState.toS, lookupField,
    decodeList_encodeList_map SData.str rt_str,
    decodeList_encodeList_map GameMilestone.toS rt_gameMilestone]

attribute [simp] rt_progressionState

/-- The value tree of a `TutorialState`. -/
def TutorialState.toS (t : TutorialState) : SData :=
  .obj (optField "activeTutorial" SData.str t.activeTutorial
    ++ [("currentStep", .num t.currentStep),
        ("completedTutorials", .arr (t.completedTutorials.map SData.str)),
        ("skippedTutorials", .arr (t.skippedTutorials.map SData.str)),
        ("isActive", .bool t.isActive)])

theorem rt_tutorialState (t : TutorialState) :
    reviverDecode (replacerEncode t.toS) = some t.toS := by
  cases h : t.activeTutorial <;>
    simp [TutorialState.toS, optField, h, lookupField,
      decodeList_encodeList_map SData.str rt_str]

attribute [simp] rt_tutorialState

/-- The value tree of an `AnimationSettings`. -/
def AnimationSettings.toS (a : AnimationSettings) : SData :=
  .obj [("enabled", .bool a.enabled), ("reducedMotion", .bool a.reducedMotion),
        ("particleEffects", .bool a.particleEffects),
        ("transitionSpeed", .str a.transitionSpeed)]

theorem rt_animationSettings (a : AnimationSettings) :
    reviverDecode (replacerEncode a.toS) = some a.toS := by
  simp [AnimationSettings.toS, lookupField]

attribute [simp] rt_animationSettings

/-- The value tree of a `NotificationSettings`. -/
def NotificationSettings.toS (n : NotificationSettings) : SData :=
  .obj [("enabled", .bool n.enabled), ("achievements", .bool n.achievements),
        ("milestones", .bool n.milestones),
        ("marketAlerts", .bool n.marketAlerts),
        ("production", .bool n.production), ("sound", .bool n.sound)]

theorem rt_notificationSettings (n : NotificationSettings) :
    reviverDecode (replacerEncode n.toS) = some n.toS := by
  simp [NotificationSettings.toS, lookupField]

attribute [simp] rt_notificationSettings

/-- The value tree of an `AccessibilitySettings`. -/
def AccessibilitySettings.toS (a : AccessibilitySettings) : SData :=
  .obj [("highContrast", .bool a.highContrast),
        ("largeText", .bool a.largeText),
        ("screenReader", .bool a.screenReader),
        ("keyboardNavigation", .bool a.keyboardNavigation),
        ("colorBlindFriendly", .bool a.colorBlindFriendly)]

theorem rt_accessibilitySettings (a : AccessibilitySettings) :
    reviverDecode (replacerEncode a.toS) = some a.toS := by
  simp [AccessibilitySettings.toS, lookupField]

attribute [simp] rt_accessibilitySettings

/-- The value tree of a `SettingsState`. -/
def SettingsState.toS (s : SettingsState) : SData :=
  .obj [("theme", .str s.theme), ("soundEnabled", .bool s.soundEnabled),
        ("musicEnabled", .bool s.musicEnabled),
        ("hapticEnabled", .bool s.hapticEnabled),
        ("animations", s.animations.toS),
        ("notifications", s.notifications.toS),
        ("accessibility", s.accessibility.toS),
        ("language", .str s.language), ("autoSave", .bool s.autoSave),
        ("saveInterval", .num s.saveInterval)]

theorem rt_settingsState (s : SettingsState) :
    reviverDecode (replacerEncode s.toS) = some s.toS := by
  simp [SettingsState.toS, lookupField]

attribute [simp] rt_settingsState

/-- The value tree of an `EasterEggTrigger`. -/
def EasterEggTriggerT.toS (t : EasterEggTriggerT) : SData :=
  .obj ([("type", .str t.type), ("condition", .str t.condition)]
    ++ optField "value" NumOrStrT.toS t.value
    ++ optField "probability" SData.num t.probability)

theorem rt_easterEggTrigger (t : EasterEggTriggerT) :
    reviverDecode (replacerEncode t.toS) = some t.toS := by
  cases h1 : t.value <;> cases h2 : t.probability <;>
    simp [EasterEggTriggerT.toS, optField, h1, h2, lookupField]

attribute [simp] rt_easterEggTrigger

/-- The value tree of an `EasterEggContent`. -/
def EasterEggContentT.toS (c : EasterEggContentT) : SData :=
  .obj ([("type", .str c.type), ("data", .str c.data)]
    ++ optField "duration" SData.num c.duration)

theorem rt_easterEggContent (c : EasterEggContentT) :
    reviverDecode (replacerEncode c.toS) = some c.toS := by
  cases h : c.duration <;>
    simp [EasterEggContentT.toS, optField, h, lookupField]

attribute [simp] rt_easterEggContent

/-- The value tree of an `EasterEgg`. -/
def EasterEgg.toS (e : EasterEgg) : SData :=
  .obj ([("id", .str e.id), ("name", .str e.name),
         ("description", .str e.description), ("trigger", e.trigger.toS),
         ("content", e.content.toS)]
    ++ optField "discoveredAt" SData.num e.discoveredAt
    ++ [("isRepeatable", .bool e.isRepeatable)])

theorem rt_easterEgg (e : EasterEgg) :
    reviverDecode (replacerEncode e.toS) = some e.toS := by
  cases h : e.discoveredAt <;>
    simp [EasterEgg.toS, optField, h, lookupField]

attribute [simp] rt_easterEgg

/-- The value tree of an `EasterEggSequence`. -/
def EasterEggSequence.toS (s : EasterEggSequence) : SData :=
  .obj [("id", .str s.id), ("sequence", .arr (s.sequence.map SData.str)),
        ("timeout", .num s.timeout), ("currentStep", .num s.currentStep),
        ("lastInput", .num s.lastInput)]

theorem rt_easterEggSequence (s : EasterEggSequence) :
    reviverDecode (replacerEncode s.toS) = some s.toS := by
  simp [EasterEggSequence.toS, lookupField,
    decodeList_encodeList_map SData.str rt_str]

/-- The value tree of an `EasterEggState`. -/
def EasterEggState.toS (e : EasterEggState) : SData :=
  .obj ([("discovered", .arr (e.discovered.map SData.str)),
         ("sequences", .arr (e.sequences.map EasterEggSequence.toS)),
         ("totalFound", .num e.totalFound)]
    ++ optField "lastFound" EasterEgg.toS e.lastFound)

theorem rt_easterEggState (e : EasterEggState) :
    reviverDecode (replacerEncode e.toS) = some e.toS := by
  cases h : e.lastFound <;>
    simp [EasterEggState.toS, optField, h, lookupField,
      decodeList_encodeList_map SData.str rt_str,
      decodeList_encodeList_map EasterEggSequence.toS rt_easterEggSequence]

attribute [simp] rt_easterEggState

/-- The value tree of a `GameMetadata`. -/
def GameMetadata.toS (m : GameMetadata) : SData :=
  .obj [("version", .str m.version), ("playerId", .str m.playerId),
        ("createdAt", .num m.createdAt), ("lastSaved", .num m.lastSaved),
        ("totalPlayTime", .num m.totalPlayTime),
        ("sessionStartTime", .num m.sessionStartTime),
        ("gameSpeed", .num m.gameSpeed), ("debugMode", .bool m.debugMode)]

theorem rt_gameMetadata (m : GameMetadata) :
    reviverDecode (replacerEncode m.toS) = some m.toS := by
  simp [GameMetadata.toS, lookupField]

attribute [simp] rt_gameMetadata

/-- The value tree of a whole `GameState` — the object that
`GameStorageService` serializes. -/
def GameState.toS (g : GameState) : SData :=
  .obj [("resources", g.resources.toS), ("production", g.production.toS),
        ("market", g.market.toS), ("automation", g.automation.toS),
        ("achievements", g.achievements.toS),
        ("progression", g.progression.toS), ("tutorial", g.tutorial.toS),
        ("settings", g.settings.toS), ("easterEggs", g.easterEggs.toS),
        ("metadata", g.metadata.toS)]

/-- The full game state survives `JSON.parse(JSON.stringify(state,
bigIntReplacer), bigIntReviver)` unchanged. -/
theorem rt_gameState (g : GameState) :
    reviverDecode (replacerEncode g.toS) = some g.toS := by
  simp [GameState.toS, lookupField]

mutual
/-- A canonical serialization of a value tree, standing in for the JSON
text `JSON.stringify` produces.  It is used only as the input of the
checksum; determinism (equal trees give equal text) is the only property
the development relies on, mirroring how the code only ever compares
digests for equality. -/
def printS : SData → String
  | .null => "null"
  | .bool b => if b then "true" else "false"
  | .num q => toString q
  | .str s => "\"" ++ s ++ "\""
  | .int b => jsIntToString b
  | .arr items => "[" ++ printItems items ++ "]"
  | .obj fields => "\x7b" ++ printFields fields ++ "\x7d"
/-- Comma-joined serialization of array elements. -/
def printItems : List SData → String
  | [] => ""
  | [a] => printS a
  | a :: as => printS a ++ "," ++ printItems as
/-- Comma-joined serialization of object properties. -/
def printFields : List (String × SData) → String
  | [] => ""
  | [(k, v)] => "\"" ++ k ++ "\":" ++ printS v
  | (k, v) :: rest => "\"" ++ k ++ "\":" ++ printS v ++ "," ++ printFields rest
end

/-- storage.ts `GameSave` (the stored record).  The game state is kept as
the value tree the database stores. -/
structure GameSave where
  id : String
  name : String
  gameState : SData
  timestamp : ℚ
  version : String
  checksum : Option String
  isAutoSave : Bool

/-- storage.ts `createChecksum`: SHA-256 over
`JSON.stringify(gameState, bigIntReplacer)`.  The digest is abstracted as
the serialized text itself: it is deterministic, and the code only ever
compares digests of such texts for equality. -/
def createChecksum (state : SData) : String := printS (replacerEncode state)

/-- storage.ts `sanitizeGameState`:
`JSON.parse(JSON.stringify(gameState, bigIntReplacer), bigIntReviver)`
(`none` models the serialization throwing). -/
def sanitizeGameState (state : SData) : Option SData :=
  reviverDecode (replacerEncode state)

/-- storage.ts `GameStorageService.saveGame`, with the generated id/name
and clock passed in: checksum the incoming state, store its sanitized
copy.  Autosave cleanup and analytics touch other records only. -/
def saveGame (state : SData) (saveId saveName version : String)
    (timestamp : ℚ) (isAutoSave : Bool) : Option GameSave :=
  match sanitizeGameState state with
  | some st =>
    some { id := saveId, name := saveName, gameState := st
           timestamp := timestamp, version := version
           checksum := some (createChecksum state), isAutoSave := isAutoSave }
  | none => none

/-- storage.ts `GameStorageService.loadGame` over the stored record table:
a missing record gives `null`; a record with a truthy checksum
(`if (gameSave.checksum)` — the empty string is falsy) is verified by
recomputing the checksum of the *stored* state and rejected on mismatch;
otherwise the stored state is returned unverified. -/
def loadGame (saves : List (String × GameSave)) (saveId : String) :
    Option SData :=
  match saves.lookup saveId with
  | none => none
  | some gameSave =>
    match gameSave.checksum with
    | some c =>
      if c ≠ "" then
        if createChecksum gameSave.gameState = c then some gameSave.gameState
        else none
      else some gameSave.gameState
    | none => some gameSave.gameState

theorem SafeBigInt.MAX_SAFE_nonneg : (0 : Int) ≤ SafeBigInt.MAX_SAFE := by
  norm_num [SafeBigInt.MAX_SAFE]

theorem SafeBigInt.add_le (a b : Int) :
    SafeBigInt.add a b ≤ SafeBigInt.MAX_SAFE := by
  simp only [SafeBigInt.add]
  split <;> omega

theorem SafeBigInt.add_nonneg (a b : Int) (ha : 0 ≤ a) (hb : 0 ≤ b) :
    0 ≤ SafeBigInt.add a b := by
  have hM := SafeBigInt.MAX_SAFE_nonneg
  simp only [SafeBigInt.add]
  split <;> omega

theorem SafeBigInt.multiply_le (a b : Int) :
    SafeBigInt.multiply a b ≤ SafeBigInt.MAX_SAFE := by
  simp only [SafeBigInt.multiply]
  split <;> omega

theorem SafeBigInt.multiply_nonneg (a b : Int) (ha : 0 ≤ a) (hb : 0 ≤ b) :
    0 ≤ SafeBigInt.multiply a b := by
  simp only [SafeBigInt.multiply]
  split
  · exact SafeBigInt.MAX_SAFE_nonneg
  · exact mul_nonneg ha hb

theorem SafeBigInt.subtract_nonneg (a b : Int) :
    0 ≤ SafeBigInt.subtract a b := by
  simp only [SafeBigInt.subtract]
  split <;> omega

theorem SafeBigInt.subtract_le (a b : Int) (haM : a ≤ SafeBigInt.MAX_SAFE)
    (hb : 0 ≤ b) : SafeBigInt.subtract a b ≤ SafeBigInt.MAX_SAFE := by
  have hM := SafeBigInt.MAX_SAFE_nonneg
  simp only [SafeBigInt.subtract]
  split <;> omega

theorem SafeBigInt.subtract_eq_of_le (a b : Int) (h : b ≤ a) :
    SafeBigInt.subtract a b = a - b := by
  simp only [SafeBigInt.subtract]
  rw [if_neg (by omega)]

theorem SafeBigInt.divide_nonneg (a b : Int) (ha : 0 ≤ a) (hb : 0 ≤ b) :
    0 ≤ SafeBigInt.divide a b := by
  simp only [SafeBigInt.divide]
  split
  · omega
  · exact Int.tdiv_nonneg ha hb

theorem SafeBigInt.tdiv_le_self (a b : Int) (ha : 0 ≤ a) (hb : 0 ≤ b) :
    a.tdiv b ≤ a := by
  lift a to ℕ using ha with m
  lift b to ℕ using hb with n
  rw [show ((m : Int).tdiv (n : Int)) = ((m / n : ℕ) : Int) from rfl]
  exact_mod_cast Nat.div_le_self m n

theorem SafeBigInt.divide_le (a b : Int) (ha : 0 ≤ a)
    (haM : a ≤ SafeBigInt.MAX_SAFE) (hb : 0 ≤ b) :
    SafeBigInt.divide a b ≤ SafeBigInt.MAX_SAFE := by
  simp only [SafeBigInt.divide]
  split
  · exact SafeBigInt.MAX_SAFE_nonneg
  · exact le_trans (SafeBigInt.tdiv_le_self a b ha hb) haM

theorem SafeBigInt.compare_lt_iff (a b : Int) :
    SafeBigInt.compare a b < 0 ↔ a < b := by
  unfold SafeBigInt.compare
  split_ifs with h1 h2 <;> constructor <;> intro h <;> omega

/-- C3 as frozen states that every result of the four operations lies in
`[0, MAX]` for all `bigint` inputs; `add` applied to a negative input
already escapes the interval, so the blanket statement is false. -/
theorem c3_counterexample :
    ¬ (0 ≤ SafeBigInt.add (-2) 0 ∧
       SafeBigInt.add (-2) 0 ≤ SafeBigInt.MAX_SAFE) := by
  decide

/-- C3 (amended): on all `bigint` inputs, `add` and `multiply` never
return a value above `MAX`, `subtract` never returns a value below `0`,
and `divide` by zero returns `0`; and on inputs already inside
`[0, MAX]`, every result of the four operations stays inside
`[0, MAX]`. -/
theorem c3_amended :
    (∀ a b : Int, SafeBigInt.add a b ≤ SafeBigInt.MAX_SAFE) ∧
    (∀ a b : Int, SafeBigInt.multiply a b ≤ SafeBigInt.MAX_SAFE) ∧
    (∀ a b : Int, 0 ≤ SafeBigInt.subtract a b) ∧
    (∀ a : Int, SafeBigInt.divide a 0 = 0) ∧
    (∀ a b : Int,
      0 ≤ a → a ≤ SafeBigInt.MAX_SAFE → 0 ≤ b → b ≤ SafeBigInt.MAX_SAFE →
      (0 ≤ SafeBigInt.add a b ∧ SafeBigInt.add a b ≤ SafeBigInt.MAX_SAFE) ∧
      (0 ≤ SafeBigInt.subtract a b ∧
        SafeBigInt.subtract a b ≤ SafeBigInt.MAX_SAFE) ∧
      (0 ≤ SafeBigInt.multiply a b ∧
        SafeBigInt.multiply a b ≤ SafeBigInt.MAX_SAFE) ∧
      (0 ≤ SafeBigInt.divide a b ∧
        SafeBigInt.divide a b ≤ SafeBigInt.MAX_SAFE)) := by
  refine ⟨SafeBigInt.add_le, SafeBigInt.multiply_le,
    SafeBigInt.subtract_nonneg, ?_, ?_⟩
  · intro a
    simp [SafeBigInt.divide]
  · intro a b ha haM hb hbM
    exact ⟨⟨SafeBigInt.add_nonneg a b ha hb, SafeBigInt.add_le a b⟩,
      ⟨SafeBigInt.subtract_nonneg a b, SafeBigInt.subtract_le a b haM hb⟩,
      ⟨SafeBigInt.multiply_nonneg a b ha hb, SafeBigInt.multiply_le a b⟩,
      ⟨SafeBigInt.divide_nonneg a b ha hb,
        SafeBigInt.divide_le a b ha haM hb⟩⟩

/-- Witness for `c3_amended` at `a = 3`, `b = 5`. -/
theorem c3_amended_witness :
    ((0 : Int) ≤ 3 ∧ (3 : Int) ≤ SafeBigInt.MAX_SAFE ∧ (0 : Int) ≤ 5 ∧
      (5 : Int) ≤ SafeBigInt.MAX_SAFE) ∧
    (0 ≤ SafeBigInt.add 3 5 ∧ SafeBigInt.add 3 5 ≤ SafeBigInt.MAX_SAFE) :=
  ⟨⟨by decide, by decide, by decide, by decide⟩,
   (c3_amended.2.2.2.2 3 5 (by decide) (by decide) (by decide)
     (by decide)).1⟩

theorem addResources_nonneg (r : ResourceState) (d : ResourceDelta)
    (hr : r.Nonneg) (hd : d.Nonneg) : (addResources r d).Nonneg := by
  obtain ⟨h1, h2, h3, h4⟩ := hr
  obtain ⟨d1, d2, d3, d4⟩ := hd
  refine ⟨?_, ?_, ?_, ?_⟩
  · show 0 ≤ (addResources r d).matchsticks
    simp only [addResources]
    split
    · refine SafeBigInt.add_nonneg _ _ h1 ?_
      cases hm : d.matchsticks with
      | none => simp
      | some v => simpa using d1 v hm
    · exact h1
  · show 0 ≤ r.money + orZero d.money
    have : 0 ≤ orZero d.money := by
      cases hm : d.money with
      | none => simp [orZero]
      | some v => simpa [orZero] using d2 v hm
    linarith
  · show 0 ≤ r.wood + orZero d.wood
    have : 0 ≤ orZero d.wood := by
      cases hm : d.wood with
      | none => simp [orZero]
      | some v => simpa [orZero] using d3 v hm
    linarith
  · show 0 ≤ r.reputation + orZero d.reputation
    have : 0 ≤ orZero d.reputation := by
      cases hm : d.reputation with
      | none => simp [orZero]
      | some v => simpa [orZero] using d4 v hm
    linarith

theorem sub_field_nonneg (x : ℚ) (vo : Option ℚ) (hx : 0 ≤ x)
    (hc : ¬(truthyQ vo = true ∧ x < orZero vo)) : 0 ≤ x - orZero vo := by
  cases vo with
  | none => simp [orZero]; linarith
  | some v =>
    by_cases hv : v = 0
    · simp [orZero, hv]; linarith
    · have : ¬ x < v := fun hlt =>
        hc ⟨by simp [truthyQ, hv], by simpa [orZero] using hlt⟩
      simp only [orZero]
      linarith

theorem subtractResources_nonneg (r : ResourceState) (d : ResourceDelta)
    (hr : r.Nonneg) : ((subtractResources r d).2).Nonneg := by
  obtain ⟨h1, h2, h3, h4⟩ := hr
  simp only [subtractResources]
  split_ifs with c1 c2 c3 c4 hm
  · exact ⟨h1, h2, h3, h4⟩
  · exact ⟨h1, h2, h3, h4⟩
  · exact ⟨h1, h2, h3, h4⟩
  · exact ⟨h1, h2, h3, h4⟩
  · exact ⟨SafeBigInt.subtract_nonneg _ _, sub_field_nonneg _ _ h2 c2,
      sub_field_nonneg _ _ h3 c3, sub_field_nonneg _ _ h4 c4⟩
  · exact ⟨h1, sub_field_nonneg _ _ h2 c2, sub_field_nonneg _ _ h3 c3,
      sub_field_nonneg _ _ h4 c4⟩

/-- C4 as frozen quantifies over *every* sequence of `addResources` /
`subtractResources` calls; a single `addResources` with a negative money
delta already drives the ledger negative, so the blanket statement is
false. -/
theorem c4_counterexample :
    ¬ (runLedgerOps initialResources
        [LedgerOp.add { money := some (-1) }]).Nonneg := by
  simp only [runLedgerOps, List.foldl_cons, List.foldl_nil, applyLedgerOp,
    addResources, initialResources, orZero, truthyInt,
    ResourceState.Nonneg]
  norm_num

/-- C4 (amended): for every sequence of ledger calls whose `addResources`
deltas are nonnegative (subtractions are unrestricted), all four
`ResourceLedger` fields stay nonnegative after every call, starting from
the initial state. -/
theorem c4_amended (ops : List LedgerOp) (h : OpsAddNonneg ops) :
    (runLedgerOps initialResources ops).Nonneg := by
  have hstep : ∀ (r : ResourceState), r.Nonneg → ∀ (rest : List LedgerOp),
      OpsAddNonneg rest → (rest.foldl applyLedgerOp r).Nonneg := by
    intro r hr rest
    induction rest generalizing r with
    | nil => intro _; exact hr
    | cons op rest ih =>
      intro hops
      have hop : op.addNonneg := hops op (List.mem_cons_self op rest)
      have hrest : OpsAddNonneg rest := fun o ho =>
        hops o (List.mem_cons_of_mem _ ho)
      rw [List.foldl_cons]
      refine ih _ ?_ hrest
      cases op with
      | add d => exact addResources_nonneg r d hr hop
      | sub d => exact subtractResources_nonneg r d hr
  refine hstep initialResources ?_ ops h
  refine ⟨le_refl 0, le_refl 0, le_refl 0, le_refl 0⟩

/-- Witness for `c4_amended`: a nonnegative add followed by a
subtraction. -/
theorem c4_amended_witness :
    OpsAddNonneg [LedgerOp.add { money := some 5 },
      LedgerOp.sub { money := some 3 }] ∧
    (runLedgerOps initialResources [LedgerOp.add { money := some 5 },
      LedgerOp.sub { money := some 3 }]).Nonneg := by
  have hops : OpsAddNonneg [LedgerOp.add { money := some 5 },
      LedgerOp.sub { money := some 3 }] := by
    intro op hop
    rw [List.mem_cons, List.mem_singleton] at hop
    rcases hop with rfl | rfl
    · simp only [LedgerOp.addNonneg, ResourceDelta.Nonneg]
      refine ⟨by simp, ?_, by simp, by simp⟩
      intro v hv
      simp only [Option.mem_def, Option.some_inj] at hv
      rw [← hv]
      norm_num
    · simp [LedgerOp.addNonneg]
  exact ⟨hops, c4_amended _ hops⟩

/-- Every field the delta actually requests (truthy, as the code tests) is
covered by the current balance. -/
def RequestedSufficient (r : ResourceState) (d : ResourceDelta) : Prop :=
  (truthyInt d.matchsticks = true →
    d.matchsticks.getD 0 ≤ r.matchsticks) ∧
  (truthyQ d.money = true → orZero d.money ≤ r.money) ∧
  (truthyQ d.wood = true → orZero d.wood ≤ r.wood) ∧
  (truthyQ d.reputation = true → orZero d.reputation ≤ r.reputation)

/-- C5: `subtractResources` validates every requested field before any
mutation.  It returns `true` exactly when every requested field has a
sufficient balance; on `false` the resource state is unchanged; on `true`
every field is decreased by exactly the requested amount. -/
theorem c5_subtract_all_or_nothing (r : ResourceState) (d : ResourceDelta) :
    ((subtractResources r d).1 = true ↔ RequestedSufficient r d) ∧
    ((subtractResources r d).1 = false → (subtractResources r d).2 = r) ∧
    ((subtractResources r d).1 = true → (subtractResources r d).2 =
      { matchsticks := r.matchsticks - d.matchsticks.getD 0
        money := r.money - orZero d.money
        wood := r.wood - orZero d.wood
        reputation := r.reputation - orZero d.reputation }) := by
  simp only [subtractResources]
  split_ifs with c1 c2 c3 c4 hm
  · refine ⟨?_, fun _ => rfl, fun h => absurd h (by simp)⟩
    constructor
    · intro h; exact absurd h (by simp)
    · intro hs
      have hlt := (SafeBigInt.compare_lt_iff _ _).mp c1.2
      have hge := hs.1 c1.1
      omega
  · refine ⟨?_, fun _ => rfl, fun h => absurd h (by simp)⟩
    constructor
    · intro h; exact absurd h (by simp)
    · intro hs
      have hge := hs.2.1 c2.1
      have hlt := c2.2
      linarith
  · refine ⟨?_, fun _ => rfl, fun h => absurd h (by simp)⟩
    constructor
    · intro h; exact absurd h (by simp)
    · intro hs
      have hge := hs.2.2.1 c3.1
      have hlt := c3.2
      linarith
  · refine ⟨?_, fun _ => rfl, fun h => absurd h (by simp)⟩
    constructor
    · intro h; exact absurd h (by simp)
    · intro hs
      have hge := hs.2.2.2 c4.1
      have hlt := c4.2
      linarith
  · have hsuff : RequestedSufficient r d := by
      refine ⟨fun _ => ?_, ?_, ?_, ?_⟩
      · by_contra hlt
        exact c1 ⟨hm, (SafeBigInt.compare_lt_iff _ _).mpr (by omega)⟩
      · intro ht
        by_contra hlt
        exact c2 ⟨ht, by linarith⟩
      · intro ht
        by_contra hlt
        exact c3 ⟨ht, by linarith⟩
      · intro ht
        by_contra hlt
        exact c4 ⟨ht, by linarith⟩
    refine ⟨iff_of_true rfl hsuff, fun h => absurd h (by simp), fun _ => ?_⟩
    simp only [ResourceState.mk.injEq, and_true]
    exact SafeBigInt.subtract_eq_of_le _ _ (hsuff.1 hm)
  · have hsuff : RequestedSufficient r d := by
      refine ⟨fun ht => absurd ht hm, ?_, ?_, ?_⟩
      · intro ht
        by_contra hlt
        exact c2 ⟨ht, by linarith⟩
      · intro ht
        by_contra hlt
        exact c3 ⟨ht, by linarith⟩
      · intro ht
        by_contra hlt
        exact c4 ⟨ht, by linarith⟩
    refine ⟨iff_of_true rfl hsuff, fun h => absurd h (by simp), fun _ => ?_⟩
    simp only [ResourceState.mk.injEq, and_true]
    cases hmm : d.matchsticks with
    | none => simp
    | some v =>
      rw [hmm] at hm
      simp only [truthyInt, ne_eq, decide_eq_true_eq,
        Decidable.not_not] at hm
      simp [hm]

/-- A concrete witness state for C5: 5 matchsticks and 10 money. -/
def c5State : ResourceState :=
  { matchsticks := 5, money := 10, wood := 0, reputation := 0 }

/-- A concrete witness delta for C5: request 3 matchsticks and 4 money. -/
def c5Delta : ResourceDelta := { matchsticks := some 3, money := some 4 }

/-- Witness for `c5_subtract_all_or_nothing` at `c5State` / `c5Delta`. -/
theorem c5_witness :
    ((subtractResources c5State c5Delta).1 = true) ∧
    ((subtractResources c5State c5Delta).2 =
      { matchsticks := 2, money := 6, wood := 0, reputation := 0 }) := by
  have hsuff : RequestedSufficient c5State c5Delta := by
    refine ⟨fun _ => ?_, fun _ => ?_, fun _ => ?_, fun _ => ?_⟩ <;>
      simp [c5State, c5Delta, orZero] <;> norm_num
  have h := c5_subtract_all_or_nothing c5State c5Delta
  have h1 := h.1.mpr hsuff
  refine ⟨h1, ?_⟩
  rw [h.2.2 h1]
  simp only [c5State, c5Delta, ResourceState.mk.injEq, Option.getD_some,
    orZero]
  norm_num

/-- The projection of the game state that the achievement predicates read:
`totalProduced`, `totalSold`, `totalRevenue`, `totalMoneySpent`, the
auto-clicker list and the current phase. -/
def metRelevant (gs : GameState) :
    Int × Int × ℚ × ℚ × List AutoClicker × String :=
  (gs.production.totalProduced, gs.market.totalSold,
   gs.market.totalRevenue, gs.automation.totalMoneySpent,
   gs.automation.autoClickers, gs.progression.currentPhase)

theorem isMet_congr (a : SimpleAchievement) {g g' : GameState}
    (h : metRelevant g = metRelevant g') :
    isAchievementMet a g = isAchievementMet a g' := by
  simp only [metRelevant, Prod.mk.injEq] at h
  obtain ⟨h1, h2, h3, h4, h5, h6⟩ := h
  unfold isAchievementMet
  rw [h1, h2, h3, h4, h5, h6]

theorem metRelevant_unlockStateUpdate (gs0 gs : GameState)
    (a : SimpleAchievement) :
    metRelevant (unlockStateUpdate gs0 gs a) = metRelevant gs := by
  unfold unlockStateUpdate applyReward
  split_ifs <;>
    simp [metRelevant, updateAchievements, addResourcesG, addResources]

theorem orZero_eq_getD (o : Option ℚ) : orZero o = o.getD 0 := by
  cases o <;> rfl

theorem money_unlockStateUpdate (gs0 gs : GameState)
    (a : SimpleAchievement) :
    (unlockStateUpdate gs0 gs a).resources.money =
      gs.resources.money + rewardMoney a := by
  unfold unlockStateUpdate applyReward rewardMoney
  split_ifs with h1 h2 <;>
    simp_all [updateAchievements, addResourcesG, addResources,
      orZero_eq_getD]

theorem unlocked_unlockStateUpdate (gs0 gs : GameState)
    (a : SimpleAchievement) :
    (unlockStateUpdate gs0 gs a).achievements.unlocked =
      gs0.achievements.unlocked ++ [a.id] := by
  unfold unlockStateUpdate applyReward
  split_ifs <;>
    simp [updateAchievements, addResourcesG, addResources]

/-- The per-achievement flag update that `checkAchievements` performs. -/
def upFlag (gs0 : GameState) (a : SimpleAchievement) : SimpleAchievement :=
  if a.unlocked then a
  else if isAchievementMet a gs0 then { a with unlocked := true } else a

/-- The full behaviour of the `checkAchievements` loop: the updated
registry is the pointwise flag update, the newly unlocked list collects
exactly the locked-but-met entries, the predicate-relevant state
projection is untouched, the money delta is the sum of the granted
rewards, and the persisted unlocked list is either untouched or the stale
snapshot list plus one newly unlocked id. -/
theorem checkLoop_spec (gs0 : GameState) (l : List SimpleAchievement)
    (gs : GameState) :
    (checkLoop gs0 l gs).1 = l.map (upFlag gs0) ∧
    (checkLoop gs0 l gs).2.2 =
      (l.filter (fun a => !a.unlocked && isAchievementMet a gs0)).map
        (fun a => { a with unlocked := true }) ∧
    metRelevant (checkLoop gs0 l gs).2.1 = metRelevant gs ∧
    (checkLoop gs0 l gs).2.1.resources.money =
      gs.resources.money +
        (((checkLoop gs0 l gs).2.2).map rewardMoney).sum ∧
    ((checkLoop gs0 l gs).2.1.achievements.unlocked =
        gs.achievements.unlocked ∨
      ∃ a ∈ (checkLoop gs0 l gs).2.2,
        (checkLoop gs0 l gs).2.1.achievements.unlocked =
          gs0.achievements.unlocked ++ [a.id]) := by
  induction l generalizing gs with
  | nil => simp [checkLoop]
  | cons a rest ih =>
    by_cases hu : a.unlocked
    · have heq : checkLoop gs0 (a :: rest) gs =
          (a :: (checkLoop gs0 rest gs).1, (checkLoop gs0 rest gs).2.1,
            (checkLoop gs0 rest gs).2.2) := by
        rw [checkLoop, if_pos hu]
      obtain ⟨ih1, ih2, ih3, ih4, ih5⟩ := ih gs
      rw [heq]
      refine ⟨?_, ?_, ih3, ih4, ih5⟩
      · simp [ih1, upFlag, hu]
      · simp [ih2, hu]
    · by_cases hmet : isAchievementMet a gs0
      · have heq : checkLoop gs0 (a :: rest) gs =
            ({ a with unlocked := true } ::
                (checkLoop gs0 rest (unlockStateUpdate gs0 gs a)).1,
              (checkLoop gs0 rest (unlockStateUpdate gs0 gs a)).2.1,
              { a with unlocked := true } ::
                (checkLoop gs0 rest (unlockStateUpdate gs0 gs a)).2.2) := by
          rw [checkLoop, if_neg hu, if_pos hmet]
        obtain ⟨ih1, ih2, ih3, ih4, ih5⟩ := ih (unlockStateUpdate gs0 gs a)
        rw [heq]
        refine ⟨?_, ?_, ?_, ?_, ?_⟩
        · simp [ih1, upFlag, hu, hmet]
        · simp [ih2, hu, hmet]
        · rw [ih3, metRelevant_unlockStateUpdate]
        · have hrm : rewardMoney { a with unlocked := true } =
              rewardMoney a := rfl
          simp only [List.map_cons, List.sum_cons, ih4,
            money_unlockStateUpdate, hrm]
          ring
        · rcases ih5 with h | ⟨b, hb, h⟩
          · right
            refine ⟨{ a with unlocked := true }, List.mem_cons_self _ _, ?_⟩
            rw [h, unlocked_unlockStateUpdate]
          · right
            exact ⟨b, List.mem_cons_of_mem _ hb, h⟩
      · have heq : checkLoop gs0 (a :: rest) gs =
            (a :: (checkLoop gs0 rest gs).1, (checkLoop gs0 rest gs).2.1,
              (checkLoop gs0 rest gs).2.2) := by
          rw [checkLoop, if_neg hu, if_neg hmet]
        obtain ⟨ih1, ih2, ih3, ih4, ih5⟩ := ih gs
        rw [heq]
        refine ⟨?_, ?_, ih3, ih4, ih5⟩
        · simp [ih1, upFlag, hu, hmet]
        · simp [ih2, hu, hmet]

/-- When every entry is already unlocked or not met, the loop is a
no-op. -/
theorem checkLoop_noop (gs0 : GameState) (l : List SimpleAchievement)
    (h : ∀ a ∈ l, a.unlocked = true ∨ isAchievementMet a gs0 = false)
    (gs : GameState) : checkLoop gs0 l gs = (l, gs, []) := by
  induction l generalizing gs with
  | nil => simp [checkLoop]
  | cons a rest ih =>
    have ha := h a (List.mem_cons_self a rest)
    have hrest : ∀ b ∈ rest, b.unlocked = true ∨
        isAchievementMet b gs0 = false := fun b hb =>
      h b (List.mem_cons_of_mem _ hb)
    rcases ha with hu | hmet
    · rw [checkLoop, if_pos hu, ih hrest]
    · by_cases hu : a.unlocked
      · rw [checkLoop, if_pos hu, ih hrest]
      · rw [checkLoop, if_neg hu, if_neg (by simp [hmet]), ih hrest]

/-- C6: `checkAchievements` is monotonic and idempotent.  For every
registry and state: running it twice, the second call newly unlocks
nothing, changes neither the registry nor the game state; the first call
credits exactly one reward per newly unlocked rule (money rises by the sum
of their rewards); each achievement id is unlocked at most as often as it
occurs in the registry; and the unlocked flags never shrink. -/
theorem c6_check_idempotent (achs : List SimpleAchievement)
    (gs : GameState) :
    ((checkAchievements (checkAchievements achs gs).1
        (checkAchievements achs gs).2.1).2.2 = []) ∧
    ((checkAchievements (checkAchievements achs gs).1
        (checkAchievements achs gs).2.1).1 = (checkAchievements achs gs).1) ∧
    ((checkAchievements (checkAchievements achs gs).1
        (checkAchievements achs gs).2.1).2.1 =
      (checkAchievements achs gs).2.1) ∧
    ((checkAchievements achs gs).2.1.resources.money =
      gs.resources.money +
        (((checkAchievements achs gs).2.2).map rewardMoney).sum) ∧
    (∀ i : String,
      ((checkAchievements achs gs).2.2.map SimpleAchievement.id).count i ≤
        (achs.map SimpleAchievement.id).count i) ∧
    List.Forall₂ (fun a a' => a.unlocked = true → a'.unlocked = true)
      achs (checkAchievements achs gs).1 := by
  simp only [checkAchievements]
  have hs := checkLoop_spec gs achs gs
  obtain ⟨h1, h2, h3, h4, _⟩ := hs
  have hnoop : ∀ a' ∈ (checkLoop gs achs gs).1, a'.unlocked = true ∨
      isAchievementMet a' ((checkLoop gs achs gs).2.1) = false := by
    intro a' ha'
    rw [h1] at ha'
    obtain ⟨a, _, rfl⟩ := List.mem_map.mp ha'
    by_cases hu : a.unlocked
    · left; simp [upFlag, hu]
    · by_cases hmet : isAchievementMet a gs
      · left; simp [upFlag, hu, hmet]
      · right
        have hup : upFlag gs a = a := by simp [upFlag, hu, hmet]
        rw [hup, isMet_congr a h3]
        simpa using hmet
  have hsecond := checkLoop_noop ((checkLoop gs achs gs).2.1)
    (checkLoop gs achs gs).1 hnoop ((checkLoop gs achs gs).2.1)
  refine ⟨?_, ?_, ?_, h4, ?_, ?_⟩
  · rw [hsecond]
  · rw [hsecond]
  · rw [hsecond]
  · intro i
    rw [h2, List.map_map]
    have hcomp : (SimpleAchievement.id ∘ fun a =>
        { a with unlocked := true }) = SimpleAchievement.id := by
      funext a; rfl
    rw [hcomp]
    exact ((List.filter_sublist achs).map SimpleAchievement.id).count_le i
  · rw [h1]
    rw [List.forall₂_map_right_iff]
    refine List.forall₂_same.mpr ?_
    intro a _ hu
    simp [upFlag, hu]

/-- A concrete state for the C6 witness: one matchstick produced. -/
def c6State : GameState :=
  let g := createInitialGameState 0
  { g with production := { g.production with totalProduced := 1 } }

/-- Witness for `c6_check_idempotent`: the money delta of the first call
equals the sum of the newly granted rewards, and the second call unlocks
nothing. -/
theorem c6_witness :
    ((checkAchievements initialAchievements c6State).2.1.resources.money =
      c6State.resources.money +
        (((checkAchievements initialAchievements c6State).2.2).map
          rewardMoney).sum) ∧
    ((checkAchievements (checkAchievements initialAchievements c6State).1
        (checkAchievements initialAchievements c6State).2.1).2.2 = []) :=
  ⟨(c6_check_idempotent initialAchievements c6State).2.2.2.1,
   (c6_check_idempotent initialAchievements c6State).1⟩

/-- C7 (modelled sync): after a load whose snapshot already lists `X` as
unlocked, reconciling the evaluator with `syncWithGameState` and then
running `checkAchievements` never re-unlocks `X` (every newly unlocked id
is absent from the loaded unlocked list, hence distinct from `X`), never
appends a duplicate of `X` to the persisted unlocked list, and applies
rewards only for the genuinely new unlocks. -/
theorem c7_sync_prevents_retrigger (achs : List SimpleAchievement)
    (gs : GameState) (X : String) (hX : X ∈ gs.achievements.unlocked) :
    (∀ a ∈ (checkAchievements (syncWithGameState achs gs) gs).2.2,
      a.id ≠ X ∧ a.id ∉ gs.achievements.unlocked) ∧
    ((checkAchievements (syncWithGameState achs gs)
        gs).2.1.achievements.unlocked.count X =
      gs.achievements.unlocked.count X) ∧
    ((checkAchievements (syncWithGameState achs gs)
        gs).2.1.resources.money =
      gs.resources.money +
        (((checkAchievements (syncWithGameState achs gs) gs).2.2).map
          rewardMoney).sum) := by
  simp only [checkAchievements]
  have hs := checkLoop_spec gs (syncWithGameState achs gs) gs
  obtain ⟨_, h2, _, h4, h5⟩ := hs
  have hnew : ∀ a ∈ (checkLoop gs (syncWithGameState achs gs) gs).2.2,
      a.id ≠ X ∧ a.id ∉ gs.achievements.unlocked := by
    intro a ha
    rw [h2] at ha
    obtain ⟨b, hb, rfl⟩ := List.mem_map.mp ha
    have hbf := List.of_mem_filter hb
    have hbm := List.mem_of_mem_filter hb
    obtain ⟨c, _, rfl⟩ := List.mem_map.mp
      (by simpa [syncWithGameState] using hbm)
    simp only [Bool.and_eq_true, Bool.not_eq_true'] at hbf
    have hnotin : c.id ∉ gs.achievements.unlocked := by
      simpa using hbf.1
    refine ⟨fun hcontra => hnotin (hcontra ▸ hX), hnotin⟩
  refine ⟨hnew, ?_, h4⟩
  rcases h5 with h | ⟨a, ha, h⟩
  · rw [h]
  · rw [h, List.count_append]
    have hane := (hnew a ha).1
    have hzero : List.count X [a.id] = 0 := by
      rw [List.count_eq_zero]
      intro hmem
      rw [List.mem_singleton] at hmem
      exact hane hmem.symm
    rw [hzero, Nat.add_zero]

/-- A concrete loaded state for the C7 witness: `first_match` already in
the persisted unlocked list and 100 matchsticks produced (so the locked
`first_hundred` is due). -/
def c7State : GameState :=
  let g := createInitialGameState 0
  { g with
    production := { g.production with totalProduced := 100 }
    achievements := { g.achievements with unlocked := ["first_match"] } }

/-- Witness for `c7_sync_prevents_retrigger` at `c7State` and
`X = "first_match"`. -/
theorem c7_witness :
    ("first_match" ∈ c7State.achievements.unlocked) ∧
    ((checkAchievements (syncWithGameState initialAchievements c7State)
        c7State).2.1.achievements.unlocked.count "first_match" =
      c7State.achievements.unlocked.count "first_match") :=
  ⟨by simp [c7State, createInitialGameState],
   (c7_sync_prevents_retrigger initialAchievements c7State "first_match"
     (by simp [c7State, createInitialGameState])).2.1⟩

/-- The C1 scenario state: 1000 matchsticks held, price 1.0, fresh
game otherwise. -/
def c1State : GameState :=
  let g := createInitialGameState 0
  { g with resources := { g.resources with matchsticks := 1000 } }

/-- C1 failing input: `MarketService.sellMatchsticks(10n)` from
`c1State` with the fresh achievement registry.  The sale succeeds and the
ledger drops by exactly 10 matchsticks, but the money ledger rises by 45,
not by the claimed revenue of ≈10: `gameActions.sellMatchsticks` already
credits `10 × price` and bumps `totalSold`, the market service then
credits the impact-adjusted revenue a second time and bumps `totalSold`
again (to 20), and the spuriously doubled `totalSold` unlocks the
`first_sale` achievement whose reward adds another 25. -/
theorem c1_sell_double_credit :
    ((marketSellMatchsticks initialAchievements c1State 10).1.success =
      true) ∧
    ((marketSellMatchsticks initialAchievements c1State 10).1.revenue =
      10) ∧
    ((marketSellMatchsticks initialAchievements c1State
        10).2.1.resources.matchsticks = 990) ∧
    ((marketSellMatchsticks initialAchievements c1State
        10).2.1.resources.money = 45) ∧
    ((marketSellMatchsticks initialAchievements c1State
        10).2.1.market.totalSold = 20) := by
  simp [c1State, createInitialGameState, marketSellMatchsticks,
    gameSellMatchsticks, subtractResourcesG, subtractResources,
    addResourcesG, addResources, updateMarket, updatePriceAfterTrade,
    calculateMarketImpact, calculateMarketShare, SafeBigInt.compare,
    SafeBigInt.add, SafeBigInt.subtract, SafeBigInt.MAX_SAFE, truthyInt,
    truthyQ, orZero, checkAchievements, checkLoop, isAchievementMet,
    unlockStateUpdate, applyReward, updateAchievements, rewardMoney,
    initialAchievements, sumClickerLevels]
  norm_num

/-- The first C2 call: one click at time 0 on a fresh service and fresh
game. -/
def c2Run1 :=
  produceMatchsticks (initialProductionService 0) initialAchievements
    (createInitialGameState 0) 1 0

/-- The second C2 call: one click 3000ms later — beyond the 2000ms combo
decay window. -/
def c2Run2 := produceMatchsticks c2Run1.2.1 c2Run1.2.2.1 c2Run1.2.2.2 1 3000

/-- C2 failing input: two `produceMatchsticks` calls 3000ms apart.  The
claim (and the code's own comments) say the combo resets to count 1 /
multiplier 1 after any gap over 2000ms, but `updateClickStats` overwrites
`lastClickTime` with the current time before `updateClickCombo` reads it,
so the measured gap is always 0 and the second call continues the combo:
count 2, multiplier 1.01. -/
theorem c2_combo_never_resets :
    c2Run2.1.comboCount = 2 ∧ c2Run2.1.comboMultiplier = 101/100 ∧
    ¬ c2Run2.1.comboMultiplier = 1 := by
  simp [c2Run1, c2Run2, produceMatchsticks, initialProductionService,
    createInitialGameState, updateClickStats, updateClickCombo,
    calculateTotalMultiplier, updateProduction, addResourcesG, addResources,
    truthyInt, truthyQ, orZero, SafeBigInt.add, SafeBigInt.MAX_SAFE,
    checkAchievements, checkLoop, isAchievementMet, unlockStateUpdate,
    applyReward, updateAchievements, rewardMoney, initialAchievements,
    sumClickerLevels]
  norm_num

/-- The C9 scenario state: 200 money, fresh game otherwise. -/
def c9State : GameState :=
  let g := createInitialGameState 0
  { g with resources := { g.resources with money := 200 } }

/-- First basic auto-clicker purchase from `c9State`. -/
def c9Run1 := purchaseAutoClicker initialAchievements c9State "basic_clicker"

/-- Second basic auto-clicker purchase, in the state left by the first. -/
def c9Run2 := purchaseAutoClicker c9Run1.2.2 c9Run1.2.1 "basic_clicker"

/-- The C9 counterexample state: a fast auto-clicker already at level 3,
1000 total matchsticks produced (meeting its unlock requirement) and 1000
money. -/
def c9FastState : GameState :=
  let g := createInitialGameState 0
  { g with
      resources := { g.resources with money := 1000 }
      production := { g.production with totalProduced := 1000 }
      automation := { g.automation with
        autoClickers := [{ id := "fast_clicker", level := 3
                           isActive := true, totalClicks := 0
                           efficiency := 1 }] } }

/-- Fourth purchase of the fast auto-clicker (current level 3). -/
def c9Run3 :=
  purchaseAutoClicker initialAchievements c9FastState "fast_clicker"

theorem basicClickerConfig_id :
    basicClickerConfig.id = "basic_clicker" := rfl

theorem fastClickerConfig_id : fastClickerConfig.id = "fast_clicker" := rfl

theorem turboClickerConfig_id :
    turboClickerConfig.id = "turbo_clicker" := rfl

theorem quantumClickerConfig_id :
    quantumClickerConfig.id = "quantum_clicker" := rfl

theorem basicClickerConfig_maxLevel : basicClickerConfig.maxLevel = 50 := rfl

theorem basicClickerConfig_unlockRequirement :
    basicClickerConfig.unlockRequirement = none := rfl

theorem fastClickerConfig_maxLevel : fastClickerConfig.maxLevel = 25 := rfl

theorem fastClickerConfig_baseCost : fastClickerConfig.baseCost = 250 := rfl

theorem fastClickerConfig_unlockRequirement :
    fastClickerConfig.unlockRequirement =
      some { totalProduced := some 1000 } := rfl

theorem cost_basic_level0 :
    calculateAutoClickerCost basicClickerConfig 0 = 50 := by
  norm_num [calculateAutoClickerCost, basicClickerConfig, mathPow, toF64,
    toF64Pos, floorLog2, floorLog2Aux_here, floorLog2Aux_halve,
    floorLog2Aux_double, roundHalfEven, abs_of_nonneg]

theorem cost_basic_level1 :
    calculateAutoClickerCost basicClickerConfig 1 = 57 := by
  norm_num [calculateAutoClickerCost, basicClickerConfig, mathPow, toF64,
    toF64Pos, floorLog2, floorLog2Aux_here, floorLog2Aux_halve,
    floorLog2Aux_double, roundHalfEven, abs_of_nonneg]

theorem cost_fast_level3 :
    calculateAutoClickerCost fastClickerConfig 3 = 431 := by
  norm_num [calculateAutoClickerCost, fastClickerConfig, mathPow, toF64,
    toF64Pos, floorLog2, floorLog2Aux_here, floorLog2Aux_halve,
    floorLog2Aux_double, roundHalfEven, abs_of_nonneg]

set_option maxHeartbeats 4000000 in
/-- C9 counterexample, refuting the frozen claim's universal cost formula
`floor(baseCost × costMultiplier^L)` in exact arithmetic: the fast
auto-clicker (baseCost 250, costMultiplier the literal `1.2`, maxLevel 25)
at current level 3 is charged 431 by the program — `Math.pow(1.2, 3)` is
the double `1.7279999999999998`, multiplying by 250 rounds to
`431.99999999999994`, and `Math.floor` gives 431 — while the claim's
formula reads `floor(250 × (12/10)^3) = 432`. -/
theorem c9_counterexample :
    calculateAutoClickerCost fastClickerConfig 3 = 431 ∧
    c9Run3.1.success = true ∧ c9Run3.1.cost = some 431 ∧
    fastClickerConfig.baseCost = 250 ∧ 3 < fastClickerConfig.maxLevel ∧
    ((⌊(250 : ℚ) * (12/10 : ℚ) ^ 3⌋ : ℤ) : ℚ) = 432 := by
  have hrun : c9Run3.1.success = true ∧ c9Run3.1.cost = some 431 := by
    simp [c9Run3, c9FastState, purchaseAutoClicker, autoClickerConfigs,
      createInitialGameState, checkUnlockRequirement, setFirstClickerLevel,
      truthyInt, truthyQ, truthyStr, orZero, addResourcesG, addResources,
      updateAutomation, checkAchievements, checkLoop, isAchievementMet,
      unlockStateUpdate, applyReward, updateAchievements, rewardMoney,
      initialAchievements, sumClickerLevels, List.find?,
      basicClickerConfig_id, fastClickerConfig_id,
      fastClickerConfig_maxLevel, fastClickerConfig_unlockRequirement,
      cost_fast_level3]
    norm_num
  exact ⟨cost_fast_level3, hrun.1, hrun.2, rfl,
    by rw [fastClickerConfig_maxLevel]; norm_num, by norm_num⟩

set_option maxHeartbeats 4000000 in
/-- C9 amended: the auto-clicker purchase cost is
`floor(baseCost × costMultiplier ^ level)` evaluated in binary64
(`Math.pow`, one IEEE-rounded multiplication, `Math.floor`); the purchase
checks existence, max level, unlock requirement and funds in that order,
each failing check returning its distinct error with the state untouched;
and concretely the first basic auto-clicker purchase costs exactly 50 and
the second exactly 57. -/
theorem c9_amended :
    (∀ (config : AutoClickerConfig) (level : Nat),
      calculateAutoClickerCost config level =
        ((⌊ toF64 (config.baseCost * mathPow config.costMultiplier level)
          ⌋ : Int) : ℚ)) ∧
    (∀ (achs : List SimpleAchievement) (gs : GameState) (cid : String),
      autoClickerConfigs.find? (fun c => c.id = cid) = none →
      purchaseAutoClicker achs gs cid =
        ({ success := false, error := some "Auto-clicker not found" },
          gs, achs)) ∧
    (∀ (achs : List SimpleAchievement) (gs : GameState) (cid : String)
      (config : AutoClickerConfig),
      autoClickerConfigs.find? (fun c => c.id = cid) = some config →
      ((gs.automation.autoClickers.find? (fun c => c.id = cid)).map
        (fun c => c.level)).getD 0 ≥ config.maxLevel →
      purchaseAutoClicker achs gs cid =
        ({ success := false, error := some "Maximum level reached" },
          gs, achs)) ∧
    (∀ (achs : List SimpleAchievement) (gs : GameState) (cid : String)
      (config : AutoClickerConfig),
      autoClickerConfigs.find? (fun c => c.id = cid) = some config →
      ((gs.automation.autoClickers.find? (fun c => c.id = cid)).map
        (fun c => c.level)).getD 0 < config.maxLevel →
      checkUnlockRequirement config.unlockRequirement gs = false →
      purchaseAutoClicker achs gs cid =
        ({ success := false, error := some "Unlock requirements not met" },
          gs, achs)) ∧
    (∀ (achs : List SimpleAchievement) (gs : GameState) (cid : String)
      (config : AutoClickerConfig),
      autoClickerConfigs.find? (fun c => c.id = cid) = some config →
      ((gs.automation.autoClickers.find? (fun c => c.id = cid)).map
        (fun c => c.level)).getD 0 < config.maxLevel →
      checkUnlockRequirement config.unlockRequirement gs = true →
      gs.resources.money < calculateAutoClickerCost config
        (((gs.automation.autoClickers.find? (fun c => c.id = cid)).map
          (fun c => c.level)).getD 0) →
      purchaseAutoClicker achs gs cid =
        ({ success := false, error := some "Insufficient funds" },
          gs, achs)) ∧
    (c9Run1.1.cost = some 50 ∧ c9Run1.1.success = true ∧
      c9Run2.1.cost = some 57 ∧ c9Run2.1.success = true) := by
  refine ⟨fun config level => rfl, ?_, ?_, ?_, ?_, ?_⟩
  · intro achs gs cid hfind
    simp only [purchaseAutoClicker, hfind]
  · intro achs gs cid config hfind hlevel
    simp only [purchaseAutoClicker, hfind]
    rw [if_pos hlevel]
  · intro achs gs cid config hfind hlevel hunlock
    simp only [purchaseAutoClicker, hfind]
    rw [if_neg (by omega), if_pos (by simp [hunlock])]
  · intro achs gs cid config hfind hlevel hunlock hmoney
    simp only [purchaseAutoClicker, hfind]
    rw [if_neg (by omega), if_neg (by simp [hunlock]), if_pos hmoney]
  · simp [c9Run1, c9Run2, c9State, purchaseAutoClicker, autoClickerConfigs,
      createInitialGameState, checkUnlockRequirement, setFirstClickerLevel,
      truthyInt, truthyQ, truthyStr, orZero, addResourcesG, addResources,
      updateAutomation, checkAchievements, checkLoop, isAchievementMet,
      unlockStateUpdate, applyReward, updateAchievements, rewardMoney,
      initialAchievements, sumClickerLevels, List.find?,
      basicClickerConfig_id, basicClickerConfig_maxLevel,
      basicClickerConfig_unlockRequirement, cost_basic_level0,
      cost_basic_level1]
    norm_num

/-- Witness for `c9_amended`: a purchase of an unknown auto-clicker id
fails with the not-found error and leaves the state unchanged. -/
theorem c9_amended_witness :
    (autoClickerConfigs.find? (fun c => c.id = "missing") = none) ∧
    purchaseAutoClicker initialAchievements (createInitialGameState 0)
        "missing" =
      ({ success := false, error := some "Auto-clicker not found" },
        createInitialGameState 0, initialAchievements) :=
  ⟨by simp [autoClickerConfigs, List.find?, basicClickerConfig_id,
     fastClickerConfig_id, turboClickerConfig_id, quantumClickerConfig_id],
   c9_amended.2.1 initialAchievements
     (createInitialGameState 0) "missing"
     (by simp [autoClickerConfigs, List.find?, basicClickerConfig_id,
       fastClickerConfig_id, turboClickerConfig_id,
       quantumClickerConfig_id])⟩

theorem printS_obj_ne_empty (l : List (String × SData)) :
    printS (.obj l) ≠ "" := by
  rw [show printS (.obj l) = "\x7b" ++ printFields l ++ "\x7d" from by
    rw [printS]]
  intro h
  have hlen := congrArg String.length h
  rw [String.length_append, String.length_append] at hlen
  have h1 : String.length "\x7b" = 1 := rfl
  have h2 : String.length "\x7d" = 1 := rfl
  have h3 : String.length "" = 0 := rfl
  omega

theorem createChecksum_toS_ne_empty (g : GameState) :
    createChecksum (GameState.toS g) ≠ "" := by
  rw [createChecksum, GameState.toS, encode_obj]
  exact printS_obj_ne_empty _

/-- C8: a saved game state loads back exactly — the tagged-and-stringified
bigint encoding survives the round trip through `saveGame` / `loadGame`
(including the checksum verification), and at the leaf level reviving the
replacer encoding of any bigint yields that bigint back. -/
theorem c8_save_load_roundtrip :
    (∀ (g : GameState) (saveId saveName version : String) (t : ℚ)
      (auto : Bool),
      (saveGame (GameState.toS g) saveId saveName version t auto).bind
        (fun sv => loadGame [(saveId, sv)] saveId) =
        some (GameState.toS g)) ∧
    (∀ b : Int,
      bigIntReviver (bigIntReplacer (.int b)) = some (.int b)) := by
  constructor
  · intro g saveId saveName version t auto
    have hsan : sanitizeGameState (GameState.toS g) =
        some (GameState.toS g) := rt_gameState g
    simp only [saveGame, hsan, Option.bind_eq_bind, Option.some_bind]
    simp only [loadGame, List.lookup, beq_self_eq_true]
    rw [if_pos (createChecksum_toS_ne_empty g)]
    simp
  · intro b
    simp [bigIntReplacer, bigIntReviver, lookupField]

/-- A stored record with a present-but-empty checksum for the C10
counterexample. -/
def c10Save : GameSave :=
  { id := "s1", name := "corrupt", gameState := SData.null, timestamp := 0
    version := "1.0.0", checksum := some "", isAutoSave := false }

/-- C10 as frozen says `loadGame` rejects exactly when a checksum is
present and the recomputed checksum differs.  A record whose checksum
field holds the empty string is present and never matches the recomputed
digest, yet `if (gameSave.checksum)` treats it as falsy and the state is
returned unverified. -/
theorem c10_counterexample :
    (c10Save.checksum = some "" ∧
      createChecksum c10Save.gameState ≠ "") ∧
    loadGame [("s1", c10Save)] "s1" = some c10Save.gameState := by
  have hch : createChecksum SData.null = "null" := by
    rw [createChecksum, encode_null]
    rw [printS]
  refine ⟨⟨rfl, ?_⟩, ?_⟩
  · rw [show c10Save.gameState = SData.null from rfl, hch]
    decide
  · simp [loadGame, List.lookup, c10Save]

/-- C10 (amended): `loadGame` returns `null` for a missing record;
returns the stored state unverified when the checksum field is absent
*or empty* (JavaScript truthiness); and when a nonempty checksum is
present it returns the stored state exactly when the recomputed checksum
matches and `null` exactly when it differs. -/
theorem c10_amended :
    (∀ (saves : List (String × GameSave)) (saveId : String),
      saves.lookup saveId = none → loadGame saves saveId = none) ∧
    (∀ (saves : List (String × GameSave)) (saveId : String)
      (save : GameSave), saves.lookup saveId = some save →
      (save.checksum = none →
        loadGame saves saveId = some save.gameState) ∧
      (save.checksum = some "" →
        loadGame saves saveId = some save.gameState) ∧
      (∀ c, save.checksum = some c → c ≠ "" →
        (createChecksum save.gameState = c →
          loadGame saves saveId = some save.gameState) ∧
        (createChecksum save.gameState ≠ c →
          loadGame saves saveId = none))) := by
  constructor
  · intro saves saveId h
    simp [loadGame, h]
  · intro saves saveId save h
    refine ⟨?_, ?_, ?_⟩
    · intro hc
      simp [loadGame, h, hc]
    · intro hc
      simp [loadGame, h, hc]
    · intro c hc hne
      constructor
      · intro heq
        simp [loadGame, h, hc, hne, heq]
      · intro hne2
        simp [loadGame, h, hc, hne, hne2]

/-- A stored record without a checksum for the C10 witness. -/
def c10SaveNoChecksum : GameSave :=
  { id := "s2", name := "plain", gameState := SData.null, timestamp := 0
    version := "1.0.0", checksum := none, isAutoSave := false }

/-- Witness for `c10_amended`: the checksum-free record loads back
unverified. -/
theorem c10_amended_witness :
    ([("s2", c10SaveNoChecksum)].lookup "s2" = some c10SaveNoChecksum) ∧
    loadGame [("s2", c10SaveNoChecksum)] "s2" =
      some c10SaveNoChecksum.gameState :=
  ⟨by simp [List.lookup], (c10_amended.2 [("s2", c10SaveNoChecksum)] "s2"
    c10SaveNoChecksum (by simp [List.lookup])).1 rfl⟩
